import Mathlib

/-!
Shallow embedding of the mini-game step functions of the calculator repository.

Conventions used throughout this development:
* JS `number` values are modelled by `ℚ` (every arithmetic operation the
  embedded code performs — `+`, `-`, `*`, division by a constant, comparisons —
  is exact on the rationals); integer-valued counters are `ℕ` or `ℤ`.
* `Math.random()` results are supplied as explicit `ℚ` parameters (one per
  call site), so every step function is a pure function of the previous state
  and of that tick's random draws.
* `Math.cos`/`Math.sin` (used only by the shooter) are supplied through an
  oracle field `dirOf : ℚ → ℚ × ℚ` of the per-tick environment, mapping an
  angle to its (cos, sin) pair.
* `Math.hypot a b < c` is embedded as `a ^ 2 + b ^ 2 < c ^ 2`, which is
  equivalent whenever `c ≥ 0`; at every embedded call site `c` is a sum of
  nonnegative radii.
* React `setState(prev => ...)` updaters are embedded as pure
  `State → State` functions; in-place mutation of nested objects performed by
  the source (e.g. `balloon.vy += gravity` mutating `prev.balloon`) is
  reproduced by threading the mutated value into every return path that the
  mutation would be visible from.
-/

namespace KeepUp

/- Game constants of src/components/KeepUpGame.tsx. -/
def GAME_WIDTH : ℚ := 400
def GAME_HEIGHT : ℚ := 400
def BALLOON_RADIUS : ℚ := 25
def GRAVITY_START : ℚ := 1/10
def HIT_FORCE : ℚ := -5
def PADDLE_WIDTH : ℚ := 100
def PADDLE_HEIGHT : ℚ := 10
def PADDLE_Y_POS : ℚ := GAME_HEIGHT - 40
def YELLOW_MODE_SCORE : ℕ := 20
def BLUE_MODE_SCORE : ℕ := 40
def BLACK_MODE_SCORE : ℕ := 60

structure Balloon where
  x : ℚ
  y : ℚ
  vx : ℚ
  vy : ℚ
  deriving Repr, DecidableEq

structure Shockwave where
  active : Bool
  size : ℚ
  opacity : ℚ
  deriving Repr, DecidableEq

structure KState where
  balloon : Balloon
  paddleX : ℚ
  score : ℕ
  isGameOver : Bool
  gravity : ℚ
  flashTimer : ℕ
  shockwave : Shockwave
  deriving Repr, DecidableEq

/-- `createInitialState` of KeepUpGame.tsx; `r` is the `Math.random()` draw
used for the initial horizontal velocity `(Math.random() - 0.5) * 2`. -/
def createInitialState (r : ℚ) : KState where
  balloon := { x := GAME_WIDTH / 2, y := GAME_HEIGHT / 3, vx := (r - 1/2) * 2, vy := 0 }
  paddleX := GAME_WIDTH / 2 - PADDLE_WIDTH / 2
  score := 0
  isGameOver := false
  gravity := GRAVITY_START
  flashTimer := 0
  shockwave := { active := false, size := 0, opacity := 1 }

/-- The animation update of the shockwave as mutated in place
(`shockwave.size += 30; shockwave.opacity -= 0.05`); the subsequent
`shockwave = { ...shockwave, active: false }` only rebinds the local variable,
so the in-place part is what `prev.shockwave` holds afterwards. -/
def shockwaveMutated (sw : Shockwave) : Shockwave :=
  if sw.active then { sw with size := sw.size + 30, opacity := sw.opacity - 1/20 } else sw

/-- The local `shockwave` variable after the animation update, including the
deactivation once opacity has run out. -/
def shockwaveLocal (sw : Shockwave) : Shockwave :=
  let m := shockwaveMutated sw
  if sw.active && decide (m.opacity ≤ 0) then { m with active := false } else m

/-- The local `flashTimer` after `if (flashTimer > 0) flashTimer -= 1`. -/
def flashTimerLocal (t : ℕ) : ℕ :=
  if 0 < t then t - 1 else t

/-- Physics integration plus wall/ceiling collision response applied in place
to `prev.balloon`:
`vy += gravity; y += vy; x += vx;` then the side-wall reflection at `×(-0.95)`
with clamping, then the ceiling reflection at `×(-0.9)` with `y = radius`. -/
def moveBalloon (s : KState) : Balloon :=
  let vy1 := s.balloon.vy + s.gravity
  let y1 := s.balloon.y + vy1
  let x1 := s.balloon.x + s.balloon.vx
  let hitWall : Bool := decide (x1 < BALLOON_RADIUS) || decide (x1 > GAME_WIDTH - BALLOON_RADIUS)
  let vx2 := if hitWall then s.balloon.vx * (-(19/20)) else s.balloon.vx
  let x2 := if hitWall then max BALLOON_RADIUS (min x1 (GAME_WIDTH - BALLOON_RADIUS)) else x1
  let hitCeiling : Bool := decide (y1 < BALLOON_RADIUS)
  let vy2 := if hitCeiling then vy1 * (-(9/10)) else vy1
  let y2 := if hitCeiling then BALLOON_RADIUS else y1
  { x := x2, y := y2, vx := vx2, vy := vy2 }

/-- The `hitPaddle` predicate of the game loop, evaluated on the
post-physics balloon. -/
def hitPaddle (b : Balloon) (paddleX : ℚ) : Bool :=
  decide (b.vy > 0) &&
  decide (b.y + BALLOON_RADIUS ≥ PADDLE_Y_POS) &&
  decide (b.y - BALLOON_RADIUS < PADDLE_Y_POS + PADDLE_HEIGHT) &&
  decide (b.x + BALLOON_RADIUS > paddleX) &&
  decide (b.x - BALLOON_RADIUS < paddleX + PADDLE_WIDTH)

/-- Whether the tick fires a paddle hit: the step is past the terminal guard
and the post-physics balloon satisfies `hitPaddle`. -/
def firesTick (s : KState) : Bool :=
  !s.isGameOver && hitPaddle (moveBalloon s) s.paddleX

/-- Whether the tick's integrated x position crosses a side wall
(the condition of the `balloon.vx *= -0.95` branch). -/
def crossesWall (s : KState) : Bool :=
  decide (s.balloon.x + s.balloon.vx < BALLOON_RADIUS) ||
  decide (s.balloon.x + s.balloon.vx > GAME_WIDTH - BALLOON_RADIUS)

/-- Whether the tick's integrated y position crosses the ceiling
(the condition of the `balloon.vy *= -0.9` branch). -/
def crossesCeiling (s : KState) : Bool :=
  decide (s.balloon.y + (s.balloon.vy + s.gravity) < BALLOON_RADIUS)

/-- Whether `newScore` lands exactly on one of the score thresholds
(the guard of the one-time flash/shockwave animation). -/
def hitsThreshold (newScore : ℕ) : Bool :=
  decide (newScore = YELLOW_MODE_SCORE) || decide (newScore = BLUE_MODE_SCORE) ||
  decide (newScore = BLACK_MODE_SCORE)

/-- The code-level threshold event for threshold `t` on this tick: the step
takes the paddle-hit branch and the incremented score equals `t` exactly
(the `newScore === t` guard of the one-shot animation). -/
def thresholdEventAt (t : ℕ) (s : KState) : Bool :=
  firesTick s && decide (s.score + 1 = t)

/-- Whether this tick arms the flash/shockwave animation for any of the
three thresholds. -/
def armsTick (s : KState) : Bool :=
  firesTick s && hitsThreshold (s.score + 1)

/-- Tier force multiplier selected from the post-hit score. -/
def forceMultiplier (newScore : ℕ) : ℚ :=
  if BLACK_MODE_SCORE ≤ newScore then 13/10
  else if BLUE_MODE_SCORE ≤ newScore then 6/5
  else if YELLOW_MODE_SCORE ≤ newScore then 11/10
  else 1

/-- Tier horizontal-velocity multiplier selected from the post-hit score. -/
def vxMultiplier (newScore : ℕ) : ℚ :=
  if BLACK_MODE_SCORE ≤ newScore then 13/2
  else if BLUE_MODE_SCORE ≤ newScore then 6
  else if YELLOW_MODE_SCORE ≤ newScore then 11/2
  else 5

/-- Tier gravity floor applied to `newGravity = min(0.4, gravity + 0.002)`. -/
def tierGravity (g1 : ℚ) (newScore : ℕ) : ℚ :=
  if BLACK_MODE_SCORE ≤ newScore then max g1 (3/10)
  else if BLUE_MODE_SCORE ≤ newScore then max g1 (1/4)
  else if YELLOW_MODE_SCORE ≤ newScore then max g1 (1/5)
  else g1

/-- The `if (hitPaddle) { ... }` branch of the game loop: score increment,
difficulty scaling, one-shot threshold animation and the paddle impulse
`vy = (HIT_FORCE + Math.random() * -1) * forceMultiplier`. -/
def paddleHitUpdate (r : ℚ) (prev : KState) : KState :=
  let balloon' := moveBalloon prev
  let newScore := prev.score + 1
  let g1 := min (2/5) (prev.gravity + 1/500)
  { prev with
    balloon := { balloon' with
      y := PADDLE_Y_POS - BALLOON_RADIUS,
      vy := (HIT_FORCE + r * (-1)) * forceMultiplier newScore,
      vx := ((balloon'.x - (prev.paddleX + PADDLE_WIDTH / 2)) / (PADDLE_WIDTH / 2)) *
        vxMultiplier newScore },
    score := newScore,
    gravity := tierGravity g1 newScore,
    flashTimer := if hitsThreshold newScore then 15 else flashTimerLocal prev.flashTimer,
    shockwave := if hitsThreshold newScore then { active := true, size := 0, opacity := 1 }
      else shockwaveLocal prev.shockwave }

/-- The game loop updater of KeepUpGame.tsx (`setGameState(prev => ...)`).
`r` is the `Math.random()` draw of the paddle-hit vertical impulse. -/
def gameLoop (r : ℚ) (prev : KState) : KState :=
  if prev.isGameOver then prev
  else if hitPaddle (moveBalloon prev) prev.paddleX then
    paddleHitUpdate r prev
  else if decide ((moveBalloon prev).y > GAME_HEIGHT) then
    -- `return { ...prev, isGameOver: true }`: `prev.balloon` and
    -- `prev.shockwave` were mutated in place before this return, while the
    -- numeric local `flashTimer` was never written back into `prev`.
    { prev with
      balloon := moveBalloon prev,
      shockwave := shockwaveMutated prev.shockwave,
      isGameOver := true }
  else
    { prev with
      balloon := moveBalloon prev,
      flashTimer := flashTimerLocal prev.flashTimer,
      shockwave := shockwaveLocal prev.shockwave }

/-- Iterated game loop: the simulation trace from a start state, feeding the
random draw `rng n` into tick `n`. -/
def ktrace (rng : ℕ → ℚ) (s0 : KState) : ℕ → KState
  | 0 => s0
  | n + 1 => gameLoop (rng n) (ktrace rng s0 n)

/-- Along the run from the initial state, tick `n` crosses threshold `t`:
the score is `t - 1` before the tick and `t` after it. -/
def FiredAt (r0 : ℚ) (rng : ℕ → ℚ) (t n : ℕ) : Prop :=
  (ktrace rng (createInitialState r0) n).score + 1 = t ∧
  (ktrace rng (createInitialState r0) (n + 1)).score = t

end KeepUp

/-- Discrete input identifiers used by the keyboard-driven games
(the source latches `keys['ArrowUp']`, `keys['w']`, `keys[' ']`, ...). -/
inductive Key
  | arrowUp | arrowDown | arrowLeft | arrowRight
  | keyW | keyA | keyS | keyD | spaceBar
  deriving DecidableEq, Repr

/-- `Math.floor(r * n)` for a `Math.random()` draw `r`. -/
def floorMul (r : ℚ) (n : ℤ) : ℤ := Int.floor (r * (n : ℚ))

/-- `Math.hypot dx dy < c`, embedded squared; equivalent whenever `0 ≤ c`,
which holds at every embedded call site (`c` is a sum of radii). -/
def hypotLt (dx dy c : ℚ) : Bool := decide (dx ^ 2 + dy ^ 2 < c ^ 2)

namespace KeepUp

/-- The browser-storage slots touched by KeepUpGame's game-over effect; a
missing key reads as 0 via `parseInt(localStorage.getItem(k) || '0', 10)`. -/
structure Storage where
  totalCoins : ℕ
  keepupBest : ℕ
  deriving Repr, DecidableEq

/-- The game-over persistence effect of KeepUpGame.tsx: guarded by the
`coinsAwardedRef` one-shot flag, it adds the final score to
`platformer_totalCoins` and overwrites `keepup_best` only on a strictly
higher score.  Returns the updated storage and the updated flag. -/
def awardOnGameOver (isGameOver : Bool) (score : ℕ) (coinsAwarded : Bool)
    (st : Storage) : Storage × Bool :=
  if isGameOver && !coinsAwarded then
    ({ totalCoins := st.totalCoins + score,
       keepupBest := if st.keepupBest < score then score else st.keepupBest }, true)
  else (st, coinsAwarded)

end KeepUp

namespace Danger

/- Game constants of src/components/DangerGame.tsx. -/
def GAME_WIDTH : ℚ := 400
def GAME_HEIGHT : ℚ := 400
def PLAYER_SIZE : ℚ := 20
def OBSTACLE_SIZE : ℚ := 25
def PLAYER_SPEED : ℚ := 8

structure DPlayer where
  x : ℚ
  y : ℚ
  deriving Repr, DecidableEq

/-- Obstacles; the `id` field (`Date.now()`, only a React list key) is
omitted as it never enters the game logic. -/
structure Obstacle where
  x : ℚ
  y : ℚ
  vx : ℚ
  vy : ℚ
  deriving Repr, DecidableEq

structure DState where
  player : DPlayer
  obstacles : List Obstacle
  time : ℕ
  isGameOver : Bool
  deriving Repr, DecidableEq

/-- The `movePlayer` updater: one step per held direction key
(`ArrowUp`/`w`, `ArrowDown`/`s`, `ArrowLeft`/`a`, `ArrowRight`/`d`),
then clamping to the playfield. -/
def movePlayer (keys : Key → Bool) (p : DPlayer) : DPlayer :=
  let y1 := if keys .arrowUp || keys .keyW then p.y - PLAYER_SPEED else p.y
  let y2 := if keys .arrowDown || keys .keyS then y1 + PLAYER_SPEED else y1
  let x1 := if keys .arrowLeft || keys .keyA then p.x - PLAYER_SPEED else p.x
  let x2 := if keys .arrowRight || keys .keyD then x1 + PLAYER_SPEED else x1
  { x := max 0 (min x2 (GAME_WIDTH - PLAYER_SIZE)),
    y := max 0 (min y2 (GAME_HEIGHT - PLAYER_SIZE)) }

/-- One main-loop tick of DangerGame.tsx: the early `if (isGameOver) return`,
the player move, obstacle integration and despawn filtering, and the
AABB collision test.  The collision test reads the `player` binding captured
by the loop closure, i.e. the pre-move position. -/
def tick (keys : Key → Bool) (s : DState) : DState :=
  if s.isGameOver then s else
  let player' := movePlayer keys s.player
  let newObstacles :=
    (s.obstacles.map fun o => { o with x := o.x + o.vx, y := o.y + o.vy }).filter fun o =>
      decide (o.x > -OBSTACLE_SIZE) && decide (o.x < GAME_WIDTH + OBSTACLE_SIZE) &&
      decide (o.y > -OBSTACLE_SIZE) && decide (o.y < GAME_HEIGHT + OBSTACLE_SIZE)
  let hit := newObstacles.any fun o =>
    decide (s.player.x < o.x + OBSTACLE_SIZE) && decide (s.player.x + PLAYER_SIZE > o.x) &&
    decide (s.player.y < o.y + OBSTACLE_SIZE) && decide (s.player.y + PLAYER_SIZE > o.y)
  { player := player', obstacles := newObstacles, time := s.time + 1, isGameOver := hit }

end Danger

namespace Snake

/- Game constants of the SnakeGame source (src/unnamed/part_002). -/
def GRID_SIZE : ℤ := 20
def GAME_SPEED : ℕ := 150

/-- Movement directions.  Modelled from the uses in SnakeGame: the shared
`Direction` enum lives in `src/types.ts`, which is referenced by the game but
not included in the corpus; its four values are fully determined by the
`switch` statements that consume it. -/
inductive Direction
  | up | down | left | right
  deriving DecidableEq, Repr

structure Pt where
  x : ℤ
  y : ℤ
  deriving DecidableEq, Repr, Inhabited

/-- Food cell; `emoji` is the index drawn into the `FRUITS` array. -/
structure Food where
  x : ℤ
  y : ℤ
  emoji : ℤ
  deriving DecidableEq, Repr

structure SState where
  snake : List Pt
  food : Food
  direction : Direction
  isGameOver : Bool
  score : ℕ
  speed : ℕ
  deriving DecidableEq, Repr

/-- One food draw: `Math.floor(Math.random() * GRID_SIZE)` twice and a
fruit-emoji index `Math.floor(Math.random() * FRUITS.length)`. -/
def randFood (rx ry re : ℚ) : Food :=
  { x := floorMul rx GRID_SIZE, y := floorMul ry GRID_SIZE, emoji := floorMul re 8 }

/-- `Math.floor(GRID_SIZE / 2)`. -/
def startPoint : Pt := ⟨10, 10⟩

/-- `createInitialState` of SnakeGame; the three rationals are the
`Math.random()` draws of the initial food. -/
def createInitialState (rx ry re : ℚ) : SState where
  snake := [startPoint]
  food := randFood rx ry re
  direction := .right
  isGameOver := false
  score := 0
  speed := GAME_SPEED

/-- `restartGame` of SnakeGame: it clears the direction buffer and replaces
the whole state with `createInitialState()` (no re-draw of the food). -/
def restartGame (rx ry re : ℚ) : SState := createInitialState rx ry re

/-- `generateFood`: the source redraws in a do/while loop until the drawn
cell avoids every snake segment.  The embedding consumes an explicit list of
proposed draws and returns the first admissible one; `none` corresponds to a
list too short to satisfy the loop (which would still be spinning). -/
def generateFood (cands : List (ℚ × ℚ × ℚ)) (currentSnake : List Pt) : Option Food :=
  (cands.map fun c => randFood c.1 c.2.1 c.2.2).find? fun f =>
    !(currentSnake.any fun seg => decide (seg.x = f.x) && decide (seg.y = f.y))

/-- Direction-buffer resolution: a buffered arrow key wins unless it is the
exact reversal of the current direction. -/
def nextDirection (buffered : Option Direction) (d : Direction) : Direction :=
  match buffered with
  | none => d
  | some .up => if d ≠ .down then .up else d
  | some .down => if d ≠ .up then .down else d
  | some .left => if d ≠ .right then .left else d
  | some .right => if d ≠ .left then .right else d

/-- The head after a one-cell move in the given direction. -/
def moveHead (d : Direction) (h : Pt) : Pt :=
  match d with
  | .up => { h with y := h.y - 1 }
  | .down => { h with y := h.y + 1 }
  | .left => { h with x := h.x - 1 }
  | .right => { h with x := h.x + 1 }

/-- The moved head of this tick.  `headI` mirrors the unchecked
`newSnake[0]` access (the snake is never empty in reachable states). -/
def newHead (buffered : Option Direction) (s : SState) : Pt :=
  moveHead (nextDirection buffered s.direction) s.snake.headI

/-- The wall-collision test on the moved head. -/
def hitsWall (head : Pt) : Bool :=
  decide (head.x < 0) || decide (head.x ≥ GRID_SIZE) ||
  decide (head.y < 0) || decide (head.y ≥ GRID_SIZE)

/-- The self-collision test: the moved head against every body segment of
index ≥ 1 (the loop `for (let i = 1; ...)` over the pre-move snake). -/
def hitsSelf (snake : List Pt) (head : Pt) : Bool :=
  (snake.drop 1).any fun seg => decide (seg.x = head.x) && decide (seg.y = head.y)

/-- Whether this tick eats the food: the step survives the terminal guard
and both collision tests, and the moved head lands on the food cell. -/
def eatsTick (buffered : Option Direction) (s : SState) : Bool :=
  !s.isGameOver && !hitsWall (newHead buffered s) && !hitsSelf s.snake (newHead buffered s) &&
  (decide ((newHead buffered s).x = s.food.x) && decide ((newHead buffered s).y = s.food.y))

/-- One tick of the SnakeGame loop.  `buffered` is `directionBuffer.current`;
`cands` supplies the random draws consumed if food is eaten. -/
def gameLoop (buffered : Option Direction) (cands : List (ℚ × ℚ × ℚ))
    (prev : SState) : SState :=
  if prev.isGameOver then prev else
  let head := newHead buffered prev
  if hitsWall head then { prev with isGameOver := true }
  else if hitsSelf prev.snake head then { prev with isGameOver := true }
  else if decide (head.x = prev.food.x) && decide (head.y = prev.food.y) then
    { prev with
      snake := head :: prev.snake,
      food := (generateFood cands (head :: prev.snake)).getD prev.food,
      score := prev.score + 1,
      speed := max 50 (prev.speed - 5),
      direction := nextDirection buffered prev.direction }
  else
    { prev with
      snake := (head :: prev.snake).dropLast,
      direction := nextDirection buffered prev.direction }

/-- Iterated snake loop with per-tick buffered input and food draws. -/
def strace (inputs : ℕ → Option Direction) (cands : ℕ → List (ℚ × ℚ × ℚ))
    (s0 : SState) : ℕ → SState
  | 0 => s0
  | n + 1 => gameLoop (inputs n) (cands n) (strace inputs cands s0 n)

end Snake

namespace DotRunner

/- Game constants of src/components/DotRunnerGame.tsx. -/
def GRID_SIZE : ℤ := 25
def GAME_SPEED_START : ℕ := 130

structure Pt where
  x : ℤ
  y : ℤ
  deriving DecidableEq, Repr

/-- A collectible cell; `symbol` is the index drawn into `SYMBOLS`. -/
structure Collectible where
  x : ℤ
  y : ℤ
  symbol : ℤ
  deriving DecidableEq, Repr

structure RState where
  player : Pt
  shadow : Pt
  collectible : Collectible
  score : ℕ
  isGameOver : Bool
  gameSpeed : ℕ
  glitch : Bool
  gameTime : ℕ
  baseShadowMoveChance : ℚ
  proximityAlert : Bool
  shadowPowerUpTimer : ℕ
  deriving DecidableEq, Repr

/-- One collectible draw (two grid coordinates and a symbol index). -/
def randCollectible (rx ry rs : ℚ) : Collectible :=
  { x := floorMul rx GRID_SIZE, y := floorMul ry GRID_SIZE, symbol := floorMul rs 5 }

/-- `createInitialState` of DotRunnerGame; the rationals are the draws of
the initial collectible.  Note the collectible here is drawn over the whole
grid with no exclusion. -/
def createInitialState (rx ry rs : ℚ) : RState where
  player := ⟨12, 12⟩
  shadow := ⟨0, 0⟩
  collectible := randCollectible rx ry rs
  score := 0
  isGameOver := false
  gameSpeed := GAME_SPEED_START
  glitch := false
  gameTime := 0
  baseShadowMoveChance := 7/20
  proximityAlert := false
  shadowPowerUpTimer := 0

/-- `generateCollectible`: redraws until the cell avoids both the player and
the shadow; embedded like `Snake.generateFood` over an explicit draw list. -/
def generateCollectible (cands : List (ℚ × ℚ × ℚ)) (currentPlayer currentShadow : Pt) :
    Option Collectible :=
  (cands.map fun c => randCollectible c.1 c.2.1 c.2.2).find? fun c =>
    !((decide (c.x = currentPlayer.x) && decide (c.y = currentPlayer.y)) ||
      (decide (c.x = currentShadow.x) && decide (c.y = currentShadow.y)))

/-- `restartGame` of DotRunnerGame: builds `createInitialState()` and then
replaces its collectible by a `generateCollectible` draw, so the restarted
collectible avoids the player's and the shadow's starting cells. -/
def restartGame (rx ry rs : ℚ) (cands : List (ℚ × ℚ × ℚ)) : RState :=
  let initialState := createInitialState rx ry rs
  { initialState with
    collectible := (generateCollectible cands initialState.player
      initialState.shadow).getD initialState.collectible }

end DotRunner

namespace Shooter

/- Game constants of the ShooterGame source (src/unnamed/part_000). -/
def GAME_WIDTH : ℚ := 500
def GAME_HEIGHT : ℚ := 500
def SHIELD_RADIUS : ℚ := 50
def PLAYER_PROJECTILE_SPEED : ℚ := 6
def ENEMY_SPAWN_RATE_START : ℚ := 1000
def ENEMY_SPEED_START : ℚ := 1
def BASE_SHIELD_MAX_HP : ℤ := 100
def PLAYER_RADIUS : ℚ := 12
def PLAYER_SPEED : ℚ := 7/2

inductive Weapon
  | pistol | shotgun | trishot
  deriving DecidableEq, Repr

structure PlayerS where
  x : ℚ
  y : ℚ
  vx : ℚ
  vy : ℚ
  angle : ℚ
  deriving DecidableEq, Repr

/-- Player projectiles; `id` (`Date.now() + Math.random()`, a React list
key) never enters the game logic and is omitted. -/
structure Proj where
  x : ℚ
  y : ℚ
  vx : ℚ
  vy : ℚ
  radius : ℚ
  deriving DecidableEq, Repr

inductive EType
  | normal | zombie
  deriving DecidableEq, Repr

structure EnemyS where
  x : ℚ
  y : ℚ
  vx : ℚ
  vy : ℚ
  radius : ℚ
  hp : ℤ
  type : EType
  deriving DecidableEq, Repr

structure Explosion where
  x : ℚ
  y : ℚ
  radius : ℚ
  duration : ℚ
  deriving DecidableEq, Repr

structure PowerUps where
  fireRate : ℕ
  hpBoost : ℕ
  deriving DecidableEq, Repr

/-- Unlock banner; the display `text` string is presentation-only and
omitted. -/
structure UnlockAnim where
  active : Bool
  timer : ℕ
  deriving DecidableEq, Repr

structure ShState where
  player : PlayerS
  projectiles : List Proj
  enemies : List EnemyS
  explosions : List Explosion
  shieldHp : ℤ
  score : ℤ
  isGameOver : Bool
  isShooting : Bool
  shootCooldown : ℚ
  gameTime : ℕ
  powerUps : PowerUps
  isShopOpen : Bool
  unlockAnimation : UnlockAnim
  deriving DecidableEq, Repr

/-- Per-tick oracle: the trigonometric values and random draws the loop
consumes.  `dirOfDeg θ` stands for `(Math.cos(θ·π/180), Math.sin(θ·π/180))`;
`spawnDir` is the (cos, sin) pair of the uniformly random spawn angle;
`deathRands i` supplies, for the `i`-th game-over explosion, its random
direction pair and the three `Math.random()` fractions. -/
structure Env where
  dirOfDeg : ℚ → ℚ × ℚ
  rSpawn : ℚ
  spawnDir : ℚ × ℚ
  rType : ℚ
  rRadius : ℚ
  deathRands : ℕ → (ℚ × ℚ) × ℚ × ℚ × ℚ

/-- `createInitialState` of ShooterGame. -/
def createInitialState : ShState where
  player := { x := GAME_WIDTH / 2, y := GAME_HEIGHT / 2, vx := 0, vy := 0, angle := 0 }
  projectiles := []
  enemies := []
  explosions := []
  shieldHp := BASE_SHIELD_MAX_HP
  score := 0
  isGameOver := false
  isShooting := false
  shootCooldown := 0
  gameTime := 0
  powerUps := { fireRate := 0, hpBoost := 0 }
  isShopOpen := false
  unlockAnimation := { active := false, timer := 0 }

/-- The unlock-animation timer update at the top of the loop. -/
def unlockAnimPhase (ua : UnlockAnim) : UnlockAnim :=
  if 0 < ua.timer then { ua with timer := ua.timer - 1 }
  else if ua.active then { ua with active := false }
  else ua

/-- Player integration and the clamp
`x = Math.max(PLAYER_RADIUS, Math.min(GAME_WIDTH - PLAYER_RADIUS, x))`
(and the analogous clamp for `y`). -/
def movePlayerPhase (p : PlayerS) : PlayerS :=
  { p with
    x := max PLAYER_RADIUS (min (GAME_WIDTH - PLAYER_RADIUS) (p.x + p.vx)),
    y := max PLAYER_RADIUS (min (GAME_HEIGHT - PLAYER_RADIUS) (p.y + p.vy)) }

/-- `powerUps.hpBoost > 0 && powerUps.hpBoost - 1 <= 0`. -/
def justExpiredHpBoost (pu : PowerUps) : Bool :=
  decide (0 < pu.hpBoost) && decide (pu.hpBoost - 1 ≤ 0)

/-- `Math.max(0, · - 1)` on both power-up timers (truncated ℕ subtraction). -/
def powerUpsPhase (pu : PowerUps) : PowerUps :=
  { fireRate := pu.fireRate - 1, hpBoost := pu.hpBoost - 1 }

/-- A projectile fired from the player along a (cos, sin) direction. -/
def mkProj (player : PlayerS) (dir : ℚ × ℚ) : Proj :=
  { x := player.x, y := player.y,
    vx := dir.1 * PLAYER_PROJECTILE_SPEED, vy := dir.2 * PLAYER_PROJECTILE_SPEED,
    radius := 5 }

/-- Angle offsets (in degrees) of the equipped weapon's pellets. -/
def weaponOffsets : Weapon → List ℚ
  | .pistol => [0]
  | .shotgun => [-(15/2), 15/2]
  | .trishot => [-15, 0, 15]

def weaponBaseCooldown : Weapon → ℚ
  | .pistol => 10
  | .shotgun => 15
  | .trishot => 20

/-- The shooting block: cooldown decrement with floor 0, then—if the player
is shooting with an elapsed cooldown—the weapon's pellets are pushed and the
cooldown is reset (halved under an active rapid-fire power-up).  Returns the
new projectiles and the new cooldown. -/
def shootPhase (w : Weapon) (dirOfDeg : ℚ → ℚ × ℚ) (player : PlayerS)
    (isShooting : Bool) (shootCooldown : ℚ) (pu : PowerUps) : List Proj × ℚ :=
  let cd := max 0 (shootCooldown - 1)
  if isShooting && decide (cd = 0) then
    ((weaponOffsets w).map fun offset => mkProj player (dirOfDeg (player.angle + offset)),
     if 0 < pu.fireRate then weaponBaseCooldown w / 2 else weaponBaseCooldown w)
  else ([], cd)

/-- One spawned enemy.  The spawn point sits at distance
`max(W/2, H/2) + 50` from the player along the random direction
`env.spawnDir`; `cos/sin(Math.atan2(player − spawn))` is the unit vector
from the spawn point back toward the player, i.e. the negated spawn
direction. -/
def spawnEnemy (env : Env) (newGameTime : ℕ) (player : PlayerS) : EnemyS :=
  let c := env.spawnDir.1
  let s := env.spawnDir.2
  let spawnDist := max (GAME_WIDTH / 2) (GAME_HEIGHT / 2) + 50
  let spawnX := player.x + c * spawnDist
  let spawnY := player.y + s * spawnDist
  let baseSpeed := ENEMY_SPEED_START + (newGameTime : ℚ) / 2000
  if decide (newGameTime > 60 * 5) && decide (env.rType < 1/4) then
    { x := spawnX, y := spawnY,
      vx := -c * (baseSpeed * (1/5)), vy := -s * (baseSpeed * (1/5)),
      radius := 15 + env.rRadius * 5, hp := 2, type := .zombie }
  else
    { x := spawnX, y := spawnY,
      vx := -c * baseSpeed, vy := -s * baseSpeed,
      radius := 10 + env.rRadius * 10, hp := 1, type := .normal }

/-- Probabilistic spawning: `Math.random() < 16 / currentSpawnRate` with
`currentSpawnRate = max(200, 1000 - gameTime / 20)`. -/
def spawnPhase (env : Env) (newGameTime : ℕ) (player : PlayerS)
    (enemies : List EnemyS) : List EnemyS :=
  let currentSpawnRate := max 200 (ENEMY_SPAWN_RATE_START - (newGameTime : ℚ) / 20)
  if decide (env.rSpawn < 16 / currentSpawnRate) then
    enemies ++ [spawnEnemy env newGameTime player]
  else enemies

/-- The small impact explosion pushed on every projectile hit. -/
def smallExplosion (e : EnemyS) : Explosion :=
  { x := e.x, y := e.y, radius := e.radius * (3/2), duration := 15 }

/-- The larger explosion pushed when an enemy's hp reaches 0. -/
def bigExplosion (e : EnemyS) : Explosion :=
  { x := e.x, y := e.y, radius := e.radius * 3, duration := 30 }

/-- Inner loop of the projectile-vs-enemy phase: one projectile against the
enemy list in order.  Enemies already at `hp ≤ 0` are skipped; every
overlapping enemy loses 1 hp (the source does not break out of the loop), a
kill adds 25 (zombie) or 10 (normal) to the score.  Returns the updated
enemies, whether the projectile hit anything, the score gain and the pushed
explosions. -/
def damageEnemies (p : Proj) : List EnemyS → List EnemyS × Bool × ℤ × List Explosion
  | [] => ([], false, 0, [])
  | e :: rest =>
    if decide (e.hp ≤ 0) then
      let (rest', hit, ds, exps) := damageEnemies p rest
      (e :: rest', hit, ds, exps)
    else if hypotLt (p.x - e.x) (p.y - e.y) (p.radius + e.radius) then
      let e' := { e with hp := e.hp - 1 }
      let killScore : ℤ := if decide (e'.hp ≤ 0) then (if e.type = .zombie then 25 else 10) else 0
      let killExps := if decide (e'.hp ≤ 0) then [bigExplosion e] else []
      let (rest', _, ds, exps) := damageEnemies p rest
      (e' :: rest', true, killScore + ds, smallExplosion e :: (killExps ++ exps))
    else
      let (rest', hit, ds, exps) := damageEnemies p rest
      (e :: rest', hit, ds, exps)

/-- The projectile-vs-enemy phase over all projectiles in order; projectiles
that hit something are dropped, the rest are kept in order. -/
def processProjectiles : List Proj → List EnemyS → List Proj × List EnemyS × ℤ × List Explosion
  | [], enemies => ([], enemies, 0, [])
  | p :: ps, enemies =>
    let (enemies1, hit, ds1, exps1) := damageEnemies p enemies
    let (kept, enemies2, ds2, exps2) := processProjectiles ps enemies1
    ((if hit then kept else p :: kept), enemies2, ds1 + ds2, exps1 ++ exps2)

/-- Enemy-vs-shield phase: every surviving enemy within `SHIELD_RADIUS + r`
of the player is consumed (one −10 hp hit plus an explosion), the others are
kept. -/
def shieldPhase (player : PlayerS) : List EnemyS → List EnemyS × ℕ × List Explosion
  | [] => ([], 0, [])
  | e :: rest =>
    let (kept, hits, exps) := shieldPhase player rest
    if hypotLt (e.x - player.x) (e.y - player.y) (SHIELD_RADIUS + e.radius) then
      (kept, hits + 1, bigExplosion e :: exps)
    else (e :: kept, hits, exps)

/-- The 20 decorative explosions pushed when the shield breaks. -/
def deathExplosions (env : Env) (player : PlayerS) : List Explosion :=
  (List.range 20).map fun i =>
    let r := env.deathRands i
    { x := player.x + r.1.1 * (SHIELD_RADIUS * r.2.1),
      y := player.y + r.1.2 * (SHIELD_RADIUS * r.2.1),
      radius := 20 + r.2.2.1 * 40,
      duration := 30 + r.2.2.2 * 30 }

/-- `if (newShieldHp <= 0) { newShieldHp = 0; newIsGameOver = true; }`. -/
def shieldOutcome (hp : ℤ) : ℤ × Bool :=
  if hp ≤ 0 then (0, true) else (hp, false)

/-- Explosion aging: decrement every duration, drop the expired ones. -/
def explosionsPhase (exps : List Explosion) : List Explosion :=
  (exps.map fun ex => { ex with duration := ex.duration - 1 }).filter fun ex =>
    decide (0 < ex.duration)

/-- Everything the loop computes up to (and including) the shield hits, so
that the shield-hp clamp can be stated over it. -/
structure CombatOut where
  player : PlayerS
  projectiles : List Proj
  shootCooldown : ℚ
  enemies : List EnemyS
  scoreGain : ℤ
  hitExplosions : List Explosion
  shieldExplosions : List Explosion
  shieldHits : ℕ
  hpAfterBoost : ℤ
  powerUps : PowerUps

/-- The movement/shooting/spawning/collision pipeline of one tick (the body
of the loop between the terminal guard and the shield-hp resolution). -/
def combat (w : Weapon) (env : Env) (prev : ShState) : CombatOut :=
  let player := movePlayerPhase prev.player
  let hpAfterBoost :=
    if justExpiredHpBoost prev.powerUps then min prev.shieldHp BASE_SHIELD_MAX_HP
    else prev.shieldHp
  let powerUps := powerUpsPhase prev.powerUps
  let (newProjs, newShootCooldown) :=
    shootPhase w env.dirOfDeg player prev.isShooting prev.shootCooldown powerUps
  let projectiles1 :=
    ((prev.projectiles ++ newProjs).map fun p => { p with x := p.x + p.vx, y := p.y + p.vy }).filter
      fun p => decide (0 < p.x) && decide (p.x < GAME_WIDTH) &&
        decide (0 < p.y) && decide (p.y < GAME_HEIGHT)
  let enemies1 := prev.enemies.map fun e => { e with x := e.x + e.vx, y := e.y + e.vy }
  let enemies2 := spawnPhase env (prev.gameTime + 1) player enemies1
  let (projectiles2, enemies3, scoreGain, exps1) := processProjectiles projectiles1 enemies2
  let enemiesAlive := enemies3.filter fun e => decide (0 < e.hp)
  let (finalEnemies, hits, exps2) := shieldPhase player enemiesAlive
  { player := player, projectiles := projectiles2, shootCooldown := newShootCooldown,
    enemies := finalEnemies, scoreGain := scoreGain, hitExplosions := exps1,
    shieldExplosions := exps2, shieldHits := hits, hpAfterBoost := hpAfterBoost,
    powerUps := powerUps }

/-- The shield hp the tick accumulates before the final `<= 0` clamp:
the (possibly hp-boost-clamped) previous hp minus 10 per shield hit. -/
def rawShieldHp (w : Weapon) (env : Env) (prev : ShState) : ℤ :=
  (combat w env prev).hpAfterBoost - 10 * ((combat w env prev).shieldHits : ℤ)

/-- The game loop updater of ShooterGame (`setGameState(prev => ...)`);
`w` is the equipped weapon captured by the loop closure. -/
def gameLoop (w : Weapon) (env : Env) (prev : ShState) : ShState :=
  if prev.isGameOver || prev.isShopOpen then prev else
  let cb := combat w env prev
  let (newShieldHp, newIsGameOver) := shieldOutcome (rawShieldHp w env prev)
  let exps3 := if decide (rawShieldHp w env prev ≤ 0) then deathExplosions env cb.player else []
  { prev with
    player := cb.player,
    projectiles := cb.projectiles,
    enemies := cb.enemies,
    explosions := explosionsPhase
      (prev.explosions ++ cb.hitExplosions ++ cb.shieldExplosions ++ exps3),
    score := prev.score + cb.scoreGain,
    shieldHp := newShieldHp,
    isGameOver := newIsGameOver,
    shootCooldown := cb.shootCooldown,
    gameTime := prev.gameTime + 1,
    powerUps := cb.powerUps,
    unlockAnimation := unlockAnimPhase prev.unlockAnimation }

end Shooter

namespace Platformer

/- Game constants of src/components/PlatformerGame.tsx. -/
def GAME_WIDTH : ℚ := 400
def GAME_HEIGHT : ℚ := 400
def PLAYER_WIDTH : ℚ := 20
def PLAYER_HEIGHT : ℚ := 20
def GRAVITY : ℚ := 1/2
def JUMP_FORCE : ℚ := -10
def MOVE_SPEED : ℚ := 4
def FRICTION : ℚ := 4/5

/-- `'playing' | 'win' | 'lose' | 'paused' | 'inTerminal'`. -/
inductive PStatus
  | playing | win | lose | paused | inTerminal
  deriving DecidableEq, Repr

structure PPlayer where
  x : ℚ
  y : ℚ
  vx : ℚ
  vy : ℚ
  onGround : Bool
  scaleX : ℚ
  scaleY : ℚ
  deriving DecidableEq, Repr

structure Rect where
  x : ℚ
  y : ℚ
  width : ℚ
  height : ℚ
  deriving DecidableEq, Repr

structure Coin where
  x : ℚ
  y : ℚ
  deriving DecidableEq, Repr

structure Goal where
  x : ℚ
  y : ℚ
  size : ℚ
  deriving DecidableEq, Repr

structure Level where
  platforms : List Rect
  coins : List Coin
  hazards : List Rect
  goal : Goal
  deriving DecidableEq, Repr

structure PState where
  player : PPlayer
  collectedCoins : List ℕ
  status : PStatus
  keys : Key → Bool

/-- The platform-resolution loop: for each platform in order, if the player
box (at the already-clamped `x` and the running `y`) overlaps it, the player
arrived from above (`prev.player.y + h ≤ p.y`) and is falling (`vy ≥ 0`),
then snap onto the platform.  The running triple is (y, vy, onGround), with
`onGround` reset to `false` before the loop. -/
def resolvePlatforms (prevY x : ℚ) (platforms : List Rect) (y vy : ℚ) : ℚ × ℚ × Bool :=
  platforms.foldl (fun acc p =>
    if decide (x + PLAYER_WIDTH > p.x) && decide (x < p.x + p.width) &&
       decide (acc.1 + PLAYER_HEIGHT > p.y) && decide (acc.1 < p.y + p.height) then
      if decide (prevY + PLAYER_HEIGHT ≤ p.y) && decide (acc.2.1 ≥ 0) then
        (p.y - PLAYER_HEIGHT, 0, true)
      else acc
    else acc) (y, vy, false)

/-- The coin-collection `forEach`: a coin not yet collected whose centre is
within `PLAYER_WIDTH / 2 + 10` of the player's centre is appended to the
collected-index list. -/
def collectCoins (x y : ℚ) (coins : List Coin) (collected : List ℕ) : List ℕ :=
  coins.enum.foldl (fun acc ic =>
    if !(acc.contains ic.1) &&
       hypotLt ((x + PLAYER_WIDTH / 2) - (ic.2.x + 10)) ((y + PLAYER_HEIGHT / 2) - (ic.2.y + 10))
         (PLAYER_WIDTH / 2 + 10) then
      acc ++ [ic.1]
    else acc) collected

/-- The game loop updater of PlatformerGame.tsx (`setGameState(prev => ...)`)
for the active level; `isShopOpen` is captured by the loop closure.
Status is resolved in source order: hazards set `lose`, falling below
`GAME_HEIGHT + 50` sets `lose`, and reaching the goal sets `win` last. -/
def gameLoop (level : Level) (isShopOpen : Bool) (prev : PState) : PState :=
  if decide (prev.status ≠ .playing) || isShopOpen then prev else
  let vx0 := if prev.keys .arrowLeft then -MOVE_SPEED
    else if prev.keys .arrowRight then MOVE_SPEED
    else prev.player.vx
  let vx1 := vx0 * FRICTION
  let vx2 := if decide (|vx1| < 1/10) then 0 else vx1
  let x1 := prev.player.x + vx2
  let x2 := if decide (x1 < 0) then 0 else x1
  let x3 := if decide (x2 > GAME_WIDTH - PLAYER_WIDTH) then GAME_WIDTH - PLAYER_WIDTH else x2
  let vy1 := prev.player.vy + GRAVITY
  let y1 := prev.player.y + vy1
  let wasOnGround := prev.player.onGround
  let res := resolvePlatforms prev.player.y x3 level.platforms y1 vy1
  let y2 := res.1
  let vy2 := res.2.1
  let onGround := res.2.2
  let jumped := (prev.keys .arrowUp || prev.keys .spaceBar) && onGround
  let vy3 := if jumped then JUMP_FORCE else vy2
  let sx1 := if jumped then (7/10 : ℚ) else prev.player.scaleX
  let sy1 := if jumped then (13/10 : ℚ) else prev.player.scaleY
  let sx2 := if !wasOnGround && onGround then (13/10 : ℚ) else sx1
  let sy2 := if !wasOnGround && onGround then (7/10 : ℚ) else sy1
  let sx3 := sx2 + (1 - sx2) * (1/5)
  let sy3 := sy2 + (1 - sy2) * (1/5)
  let newCollectedCoins := collectCoins x3 y2 level.coins prev.collectedCoins
  let st1 := if level.hazards.any (fun h =>
      decide (x3 + PLAYER_WIDTH > h.x) && decide (x3 < h.x + h.width) &&
      decide (y2 + PLAYER_HEIGHT > h.y) && decide (y2 < h.y + h.height)) then
    PStatus.lose else prev.status
  let st2 := if decide (y2 > GAME_HEIGHT + 50) then PStatus.lose else st1
  let st3 := if hypotLt ((x3 + PLAYER_WIDTH / 2) - (level.goal.x + level.goal.size / 2))
      ((y2 + PLAYER_HEIGHT / 2) - (level.goal.y + level.goal.size / 2))
      (PLAYER_WIDTH / 2 + level.goal.size / 2) then
    PStatus.win else st2
  { prev with
    player := { x := x3, y := y2, vx := vx2, vy := vy3, onGround := onGround,
                scaleX := sx3, scaleY := sy3 },
    collectedCoins := newCollectedCoins,
    status := st3 }

end Platformer

namespace Fixtures

/-! Concrete states used to witness the claim theorems on explicit inputs. -/

/-- A keep-up state frozen at game over. -/
def keepupDead : KeepUp.KState :=
  { KeepUp.createInitialState 0 with isGameOver := true }

/-- A live keep-up state whose next integrated x crosses the left wall while
the balloon also lands on the paddle span. -/
def keepupWall : KeepUp.KState :=
  { balloon := { x := 30, y := 334, vx := -10, vy := 1 }, paddleX := 0, score := 0,
    isGameOver := false, gravity := 1/10, flashTimer := 0,
    shockwave := { active := false, size := 0, opacity := 1 } }

/-- The initial keep-up state with the balloon already falling just above the
paddle (score 0, playing): the next tick is its first paddle hit. -/
def keepupDrop : KeepUp.KState :=
  { KeepUp.createInitialState 0 with balloon := { x := 200, y := 334, vx := 0, vy := 1 } }

/-- A live keep-up state whose next integrated y crosses the ceiling. -/
def keepupCeil : KeepUp.KState :=
  { KeepUp.createInitialState 0 with balloon := { x := 200, y := 30, vx := 0, vy := -10 } }

/-- A trivial shooter oracle. -/
def shooterEnv : Shooter.Env :=
  { dirOfDeg := fun _ => (1, 0), rSpawn := 1, spawnDir := (1, 0), rType := 1, rRadius := 0,
    deathRands := fun _ => ((1, 0), 0, 0, 0) }

/-- A shooter state frozen at game over. -/
def shooterDead : Shooter.ShState :=
  { Shooter.createInitialState with isGameOver := true }

/-- A snake state frozen at game over. -/
def snakeDead : Snake.SState :=
  { Snake.createInitialState 0 0 0 with isGameOver := true }

/-- A snake state whose next rightward move eats the food at (11, 10). -/
def snakeEat : Snake.SState :=
  { Snake.createInitialState 0 0 0 with food := { x := 11, y := 10, emoji := 0 } }

/-- A snake state (food at (0, 0)) whose next move eats nothing. -/
def snakeMove : Snake.SState := Snake.createInitialState 0 0 0

/-- A danger-zone state frozen at game over. -/
def dangerDead : Danger.DState :=
  { player := { x := 0, y := 0 }, obstacles := [], time := 0, isGameOver := true }

/-- An input latch with every key held. -/
def allKeys : Key → Bool := fun _ => true

/-- The danger-zone player at its starting position. -/
def dangerPlayer : Danger.DPlayer := { x := 190, y := 190 }

/-- A trivial platformer level. -/
def platLevel : Platformer.Level :=
  { platforms := [], coins := [], hazards := [], goal := { x := 1000, y := 1000, size := 10 } }

/-- A platformer state in the `playing` status. -/
def platPlaying : Platformer.PState :=
  { player := { x := 200, y := 100, vx := 0, vy := 0, onGround := false, scaleX := 1, scaleY := 1 },
    collectedCoins := [], status := .playing, keys := fun _ => false }

/-- The same platformer state after a win. -/
def platWon : Platformer.PState := { platPlaying with status := .win }

end Fixtures

/-!
Helper lemmas (shared by several claims), followed by the claim theorems.
-/

namespace KeepUp

theorem keepup_gameLoop_frozen (r : ℚ) (s : KState) (h : s.isGameOver = true) :
    gameLoop r s = s := by
  simp [gameLoop, h]

theorem fires_elim (s : KState) (h : firesTick s = true) :
    s.isGameOver = false ∧ hitPaddle (moveBalloon s) s.paddleX = true := by
  simpa [firesTick] using h

theorem gameLoop_fires (r : ℚ) (s : KState) (h : firesTick s = true) :
    gameLoop r s = paddleHitUpdate r s := by
  obtain ⟨h1, h2⟩ := fires_elim s h
  simp [gameLoop, h1, h2]

theorem paddleHitUpdate_score (r : ℚ) (s : KState) :
    (paddleHitUpdate r s).score = s.score + 1 := rfl

theorem paddleHitUpdate_gameOver (r : ℚ) (s : KState) :
    (paddleHitUpdate r s).isGameOver = s.isGameOver := rfl

theorem paddleHitUpdate_vy (r : ℚ) (s : KState) :
    (paddleHitUpdate r s).balloon.vy = (HIT_FORCE + r * (-1)) * forceMultiplier (s.score + 1) :=
  rfl

theorem gameLoop_not_fires_score (r : ℚ) (s : KState) (h : firesTick s = false) :
    (gameLoop r s).score = s.score := by
  by_cases h1 : s.isGameOver
  · rw [keepup_gameLoop_frozen r s h1]
  · have h1' : s.isGameOver = false := by simpa using h1
    have h2 : hitPaddle (moveBalloon s) s.paddleX = false := by
      simpa [firesTick, h1'] using h
    simp only [gameLoop, h1', h2, Bool.false_eq_true, if_false]
    split <;> rfl

theorem gameLoop_score_cases (r : ℚ) (s : KState) :
    (gameLoop r s).score = s.score ∨ (gameLoop r s).score = s.score + 1 := by
  cases hf : firesTick s
  · exact Or.inl (gameLoop_not_fires_score r s hf)
  · exact Or.inr (by rw [gameLoop_fires r s hf]; rfl)

theorem fires_of_score_succ (r : ℚ) (s : KState)
    (h : (gameLoop r s).score = s.score + 1) : firesTick s = true := by
  cases hf : firesTick s
  · exact absurd (gameLoop_not_fires_score r s hf) (by omega)
  · rfl

theorem ktrace_score_mono (rng : ℕ → ℚ) (s0 : KState) :
    ∀ m n : ℕ, m ≤ n → (ktrace rng s0 m).score ≤ (ktrace rng s0 n).score := by
  have step : ∀ k, (ktrace rng s0 k).score ≤ (ktrace rng s0 (k + 1)).score := by
    intro k
    rcases gameLoop_score_cases (rng k) (ktrace rng s0 k) with h | h <;>
      · show (ktrace rng s0 k).score ≤ (gameLoop (rng k) (ktrace rng s0 k)).score
        omega
  intro m n h
  induction n, h using Nat.le_induction with
  | base => exact le_refl _
  | succ k _ ih => exact le_trans ih (step k)

theorem gameLoop_fires_threshold (r : ℚ) (s : KState) (hf : firesTick s = true)
    (ht : hitsThreshold (s.score + 1) = true) :
    (gameLoop r s).flashTimer = 15 ∧ (gameLoop r s).shockwave.active = true := by
  rw [gameLoop_fires r s hf]
  unfold paddleHitUpdate
  simp [ht]

end KeepUp

namespace KeepUp

theorem moveBalloon_crossWall (s : KState) (h : crossesWall s = true) :
    (moveBalloon s).vx = s.balloon.vx * (-(19/20)) ∧
    (moveBalloon s).x =
      max BALLOON_RADIUS (min (s.balloon.x + s.balloon.vx) (GAME_WIDTH - BALLOON_RADIUS)) := by
  unfold crossesWall at h
  unfold moveBalloon
  simp [h]

theorem moveBalloon_crossCeiling (s : KState) (h : crossesCeiling s = true) :
    (moveBalloon s).y = BALLOON_RADIUS ∧
    (moveBalloon s).vy = (s.balloon.vy + s.gravity) * (-(9/10)) := by
  unfold crossesCeiling at h
  unfold moveBalloon
  simp [h]

theorem ceiling_no_paddle (s : KState) (pX : ℚ) (h : crossesCeiling s = true) :
    hitPaddle (moveBalloon s) pX = false := by
  have hy : (moveBalloon s).y = BALLOON_RADIUS := (moveBalloon_crossCeiling s h).1
  have hlt : ¬ (BALLOON_RADIUS + BALLOON_RADIUS ≥ PADDLE_Y_POS) := by
    norm_num [BALLOON_RADIUS, PADDLE_Y_POS, GAME_HEIGHT]
  simp [hitPaddle, hy, hlt]

theorem gameLoop_balloon_x (r : ℚ) (s : KState) (h : s.isGameOver = false) :
    (gameLoop r s).balloon.x = (moveBalloon s).x := by
  simp only [gameLoop, h, Bool.false_eq_true, if_false]
  split
  · rfl
  · split <;> rfl

theorem gameLoop_balloon_vx_not_hit (r : ℚ) (s : KState) (h : s.isGameOver = false)
    (hp : hitPaddle (moveBalloon s) s.paddleX = false) :
    (gameLoop r s).balloon.vx = (moveBalloon s).vx := by
  simp only [gameLoop, h, hp, Bool.false_eq_true, if_false]
  split <;> rfl

theorem gameLoop_balloon_y_not_hit (r : ℚ) (s : KState) (h : s.isGameOver = false)
    (hp : hitPaddle (moveBalloon s) s.paddleX = false) :
    (gameLoop r s).balloon.y = (moveBalloon s).y := by
  simp only [gameLoop, h, hp, Bool.false_eq_true, if_false]
  split <;> rfl

theorem gameLoop_balloon_vy_not_hit (r : ℚ) (s : KState) (h : s.isGameOver = false)
    (hp : hitPaddle (moveBalloon s) s.paddleX = false) :
    (gameLoop r s).balloon.vy = (moveBalloon s).vy := by
  simp only [gameLoop, h, hp, Bool.false_eq_true, if_false]
  split <;> rfl

end KeepUp

namespace Snake

theorem snake_gameLoop_frozen (b : Option Direction) (cands : List (ℚ × ℚ × ℚ)) (s : SState)
    (h : s.isGameOver = true) : gameLoop b cands s = s := by
  simp [gameLoop, h]

theorem eats_elim (b : Option Direction) (s : SState) (h : eatsTick b s = true) :
    s.isGameOver = false ∧ hitsWall (newHead b s) = false ∧
    hitsSelf s.snake (newHead b s) = false ∧
    (newHead b s).x = s.food.x ∧ (newHead b s).y = s.food.y := by
  simpa [eatsTick, and_assoc] using h

theorem gameLoop_eats (b : Option Direction) (cands : List (ℚ × ℚ × ℚ)) (s : SState)
    (h : eatsTick b s = true) :
    (gameLoop b cands s).snake.length = s.snake.length + 1 ∧
    (gameLoop b cands s).score = s.score + 1 := by
  obtain ⟨h1, h2, h3, h4, h5⟩ := eats_elim b s h
  simp [gameLoop, h1, h2, h3, h4, h5]

theorem gameLoop_not_eats (b : Option Direction) (cands : List (ℚ × ℚ × ℚ)) (s : SState)
    (h : eatsTick b s = false) :
    (gameLoop b cands s).snake.length = s.snake.length ∧
    (gameLoop b cands s).score = s.score := by
  by_cases hg : s.isGameOver
  · rw [snake_gameLoop_frozen b cands s hg]; exact ⟨rfl, rfl⟩
  · have hg' : s.isGameOver = false := by simpa using hg
    by_cases hw : hitsWall (newHead b s) = true
    · simp [gameLoop, hg', hw]
    · have hw' : hitsWall (newHead b s) = false := by simpa using hw
      by_cases hs : hitsSelf s.snake (newHead b s) = true
      · simp [gameLoop, hg', hw', hs]
      · have hs' : hitsSelf s.snake (newHead b s) = false := by simpa using hs
        have hf : (decide ((newHead b s).x = s.food.x) &&
            decide ((newHead b s).y = s.food.y)) = false := by
          simpa [eatsTick, hg', hw', hs'] using h
        simp [gameLoop, hg', hw', hs', hf, List.length_dropLast]

theorem step_preserves_inv (b : Option Direction) (cands : List (ℚ × ℚ × ℚ)) (s : SState)
    (h : s.snake.length = s.score + 1) :
    (gameLoop b cands s).snake.length = (gameLoop b cands s).score + 1 := by
  cases he : eatsTick b s
  · have := gameLoop_not_eats b cands s he; omega
  · have := gameLoop_eats b cands s he; omega

theorem strace_inv (inputs : ℕ → Option Direction) (cands : ℕ → List (ℚ × ℚ × ℚ))
    (rx ry re : ℚ) : ∀ n,
    (strace inputs cands (createInitialState rx ry re) n).snake.length =
      (strace inputs cands (createInitialState rx ry re) n).score + 1 := by
  intro n
  induction n with
  | zero => rfl
  | succ k ih => exact step_preserves_inv (inputs k) (cands k) _ ih

end Snake

namespace Danger

theorem movePlayer_bounds (keys : Key → Bool) (p : DPlayer) :
    0 ≤ (movePlayer keys p).x ∧ (movePlayer keys p).x ≤ GAME_WIDTH - PLAYER_SIZE ∧
    0 ≤ (movePlayer keys p).y ∧ (movePlayer keys p).y ≤ GAME_HEIGHT - PLAYER_SIZE := by
  unfold movePlayer
  refine ⟨le_max_left _ _, ?_, le_max_left _ _, ?_⟩ <;>
    exact max_le (by norm_num [GAME_WIDTH, GAME_HEIGHT, PLAYER_SIZE]) (min_le_right _ _)

theorem movePlayer_x_cancel (keys : Key → Bool) (p : DPlayer)
    (hL : keys Key.arrowLeft = true) (hR : keys Key.arrowRight = true)
    (h0 : 0 ≤ p.x) (h1 : p.x ≤ GAME_WIDTH - PLAYER_SIZE) :
    (movePlayer keys p).x = p.x := by
  unfold movePlayer
  simp only [hL, Bool.true_or, if_true, hR]
  have hx : p.x - PLAYER_SPEED + PLAYER_SPEED = p.x := by ring
  rw [hx, min_eq_left h1, max_eq_right h0]

theorem movePlayer_y_cancel (keys : Key → Bool) (p : DPlayer)
    (hU : keys Key.arrowUp = true) (hD : keys Key.arrowDown = true)
    (h0 : 0 ≤ p.y) (h1 : p.y ≤ GAME_HEIGHT - PLAYER_SIZE) :
    (movePlayer keys p).y = p.y := by
  unfold movePlayer
  simp only [hU, Bool.true_or, if_true, hD]
  have hy : p.y - PLAYER_SPEED + PLAYER_SPEED = p.y := by ring
  rw [hy, min_eq_left h1, max_eq_right h0]

end Danger

namespace Shooter

theorem combat_player (w : Weapon) (env : Env) (s : ShState) :
    (combat w env s).player = movePlayerPhase s.player := rfl

theorem shooter_gameLoop_frozen (w : Weapon) (env : Env) (s : ShState)
    (h : s.isGameOver = true ∨ s.isShopOpen = true) : gameLoop w env s = s := by
  rcases h with h | h <;> simp [gameLoop, h]

theorem gameLoop_player (w : Weapon) (env : Env) (s : ShState)
    (h1 : s.isGameOver = false) (h2 : s.isShopOpen = false) :
    (gameLoop w env s).player = movePlayerPhase s.player := by
  simp only [gameLoop, h1, h2, Bool.or_self, Bool.false_eq_true, if_false]
  exact combat_player w env s

theorem gameLoop_shield (w : Weapon) (env : Env) (s : ShState)
    (h1 : s.isGameOver = false) (h2 : s.isShopOpen = false) :
    (gameLoop w env s).shieldHp = (shieldOutcome (rawShieldHp w env s)).1 ∧
    (gameLoop w env s).isGameOver = (shieldOutcome (rawShieldHp w env s)).2 := by
  simp [gameLoop, h1, h2]

theorem movePlayerPhase_bounds (p : PlayerS) :
    PLAYER_RADIUS ≤ (movePlayerPhase p).x ∧
    (movePlayerPhase p).x ≤ GAME_WIDTH - PLAYER_RADIUS ∧
    PLAYER_RADIUS ≤ (movePlayerPhase p).y ∧
    (movePlayerPhase p).y ≤ GAME_HEIGHT - PLAYER_RADIUS := by
  unfold movePlayerPhase
  refine ⟨le_max_left _ _, ?_, le_max_left _ _, ?_⟩ <;>
    exact max_le (by norm_num [GAME_WIDTH, GAME_HEIGHT, PLAYER_RADIUS]) (min_le_left _ _)

end Shooter

namespace Platformer

theorem platformer_gameLoop_frozen (level : Level) (isShopOpen : Bool) (s : PState)
    (h : s.status ≠ .playing) : gameLoop level isShopOpen s = s := by
  simp [gameLoop, h]

theorem gameLoop_x_bounds (level : Level) (s : PState) (h : s.status = .playing) :
    0 ≤ (gameLoop level false s).player.x ∧
    (gameLoop level false s).player.x ≤ GAME_WIDTH - PLAYER_WIDTH := by
  simp only [gameLoop, h, decide_eq_true_eq, GAME_WIDTH, PLAYER_WIDTH, MOVE_SPEED, FRICTION]
  norm_num
  constructor <;> split_ifs <;> linarith

end Platformer

/-- Claim C1: for every embedded mini-game step function, invoking the step
on a state whose status is terminal returns the same state unchanged — no
entity position, score, or status changes on a stray tick after game over
(keep-up, shooter, snake, danger-zone, and platformer; for the platformer,
terminal means status `win` or `lose`). -/
theorem claim1_terminal_tick_is_noop :
    (∀ (r : ℚ) (s : KeepUp.KState), s.isGameOver = true → KeepUp.gameLoop r s = s) ∧
    (∀ (w : Shooter.Weapon) (env : Shooter.Env) (s : Shooter.ShState),
      s.isGameOver = true → Shooter.gameLoop w env s = s) ∧
    (∀ (b : Option Snake.Direction) (cands : List (ℚ × ℚ × ℚ)) (s : Snake.SState),
      s.isGameOver = true → Snake.gameLoop b cands s = s) ∧
    (∀ (keys : Key → Bool) (s : Danger.DState), s.isGameOver = true → Danger.tick keys s = s) ∧
    (∀ (level : Platformer.Level) (isShopOpen : Bool) (s : Platformer.PState),
      s.status = .win ∨ s.status = .lose → Platformer.gameLoop level isShopOpen s = s) := by
  refine ⟨KeepUp.keepup_gameLoop_frozen,
    fun w env s h => Shooter.shooter_gameLoop_frozen w env s (Or.inl h),
    Snake.snake_gameLoop_frozen, ?_, ?_⟩
  · intro keys s h
    simp [Danger.tick, h]
  · intro level isShopOpen s h
    apply Platformer.platformer_gameLoop_frozen
    rcases h with h | h <;> simp [h]

/-- Witness for C1 at explicit terminal states of all five games. -/
theorem claim1_terminal_tick_is_noop_check :
    KeepUp.gameLoop 0 Fixtures.keepupDead = Fixtures.keepupDead ∧
    Shooter.gameLoop .pistol Fixtures.shooterEnv Fixtures.shooterDead = Fixtures.shooterDead ∧
    Snake.gameLoop none [] Fixtures.snakeDead = Fixtures.snakeDead ∧
    Danger.tick Fixtures.allKeys Fixtures.dangerDead = Fixtures.dangerDead ∧
    Platformer.gameLoop Fixtures.platLevel false Fixtures.platWon = Fixtures.platWon :=
  ⟨claim1_terminal_tick_is_noop.1 0 Fixtures.keepupDead rfl,
   claim1_terminal_tick_is_noop.2.1 .pistol Fixtures.shooterEnv Fixtures.shooterDead rfl,
   claim1_terminal_tick_is_noop.2.2.1 none [] Fixtures.snakeDead rfl,
   claim1_terminal_tick_is_noop.2.2.2.1 Fixtures.allKeys Fixtures.dangerDead rfl,
   claim1_terminal_tick_is_noop.2.2.2.2 Fixtures.platLevel false Fixtures.platWon (Or.inl rfl)⟩

/-- Claim C2 (amended): in the balloon keep-up game, on any non-terminal tick
whose integrated x position crosses a side wall, the post-tick x is clamped
into [radius, width − radius], and the post-tick horizontal velocity equals
−0.95 times the pre-tick one unless the paddle-contact predicate also fires
on that same tick (in which case the paddle impulse overwrites vx while x
stays clamped); on any tick whose integrated y crosses the ceiling, the
vertical velocity becomes −0.9 times the post-gravity velocity and y is set
to the radius (a ceiling tick can never fire the paddle). -/
theorem claim2_wall_bounce_amended (r : ℚ) (s : KeepUp.KState)
    (halive : s.isGameOver = false) :
    (KeepUp.crossesWall s = true →
      KeepUp.BALLOON_RADIUS ≤ (KeepUp.gameLoop r s).balloon.x ∧
      (KeepUp.gameLoop r s).balloon.x ≤ KeepUp.GAME_WIDTH - KeepUp.BALLOON_RADIUS ∧
      (KeepUp.hitPaddle (KeepUp.moveBalloon s) s.paddleX = false →
        (KeepUp.gameLoop r s).balloon.vx = s.balloon.vx * (-(19/20)))) ∧
    (KeepUp.crossesCeiling s = true →
      (KeepUp.gameLoop r s).balloon.y = KeepUp.BALLOON_RADIUS ∧
      (KeepUp.gameLoop r s).balloon.vy = (s.balloon.vy + s.gravity) * (-(9/10))) := by
  constructor
  · intro hw
    obtain ⟨hvx, hx⟩ := KeepUp.moveBalloon_crossWall s hw
    have hgx := KeepUp.gameLoop_balloon_x r s halive
    refine ⟨?_, ?_, ?_⟩
    · rw [hgx, hx]; exact le_max_left _ _
    · rw [hgx, hx]
      exact max_le (by norm_num [KeepUp.BALLOON_RADIUS, KeepUp.GAME_WIDTH]) (min_le_right _ _)
    · intro hp
      rw [KeepUp.gameLoop_balloon_vx_not_hit r s halive hp, hvx]
  · intro hc
    have hp := KeepUp.ceiling_no_paddle s s.paddleX hc
    obtain ⟨hy, hvy⟩ := KeepUp.moveBalloon_crossCeiling s hc
    exact ⟨by rw [KeepUp.gameLoop_balloon_y_not_hit r s halive hp, hy],
      by rw [KeepUp.gameLoop_balloon_vy_not_hit r s halive hp, hvy]⟩

/-- Counterexample to C2 as stated: a tick on which the balloon crosses the
left wall and also lands on the paddle — the post-tick horizontal velocity
is the paddle impulse −5/2, not −0.95 · vx = 19/2. -/
theorem claim2_wall_bounce_cex :
    KeepUp.crossesWall Fixtures.keepupWall = true ∧
    Fixtures.keepupWall.isGameOver = false ∧
    (KeepUp.gameLoop (1/2) Fixtures.keepupWall).balloon.vx = -(5/2) ∧
    Fixtures.keepupWall.balloon.vx * (-(19/20)) = 19/2 ∧
    (KeepUp.gameLoop (1/2) Fixtures.keepupWall).balloon.vx ≠
      Fixtures.keepupWall.balloon.vx * (-(19/20)) := by
  refine ⟨?_, rfl, ?_, by norm_num [Fixtures.keepupWall], ?_⟩
  · norm_num [KeepUp.crossesWall, Fixtures.keepupWall, KeepUp.BALLOON_RADIUS, KeepUp.GAME_WIDTH]
  · norm_num [KeepUp.gameLoop, KeepUp.paddleHitUpdate, Fixtures.keepupWall, KeepUp.hitPaddle,
      KeepUp.moveBalloon, KeepUp.vxMultiplier, KeepUp.hitsThreshold, KeepUp.BALLOON_RADIUS,
      KeepUp.GAME_WIDTH, KeepUp.GAME_HEIGHT, KeepUp.PADDLE_Y_POS, KeepUp.PADDLE_WIDTH,
      KeepUp.PADDLE_HEIGHT, KeepUp.YELLOW_MODE_SCORE, KeepUp.BLUE_MODE_SCORE,
      KeepUp.BLACK_MODE_SCORE]
  · norm_num [KeepUp.gameLoop, KeepUp.paddleHitUpdate, Fixtures.keepupWall, KeepUp.hitPaddle,
      KeepUp.moveBalloon, KeepUp.vxMultiplier, KeepUp.hitsThreshold, KeepUp.BALLOON_RADIUS,
      KeepUp.GAME_WIDTH, KeepUp.GAME_HEIGHT, KeepUp.PADDLE_Y_POS, KeepUp.PADDLE_WIDTH,
      KeepUp.PADDLE_HEIGHT, KeepUp.YELLOW_MODE_SCORE, KeepUp.BLUE_MODE_SCORE,
      KeepUp.BLACK_MODE_SCORE]

/-- Witness for the amended C2 at an explicit wall-crossing state and an
explicit ceiling-crossing state. -/
theorem claim2_wall_bounce_amended_check :
    ((KeepUp.crossesWall Fixtures.keepupWall = true →
      KeepUp.BALLOON_RADIUS ≤ (KeepUp.gameLoop (1/2) Fixtures.keepupWall).balloon.x ∧
      (KeepUp.gameLoop (1/2) Fixtures.keepupWall).balloon.x ≤
        KeepUp.GAME_WIDTH - KeepUp.BALLOON_RADIUS ∧
      (KeepUp.hitPaddle (KeepUp.moveBalloon Fixtures.keepupWall) Fixtures.keepupWall.paddleX = false →
        (KeepUp.gameLoop (1/2) Fixtures.keepupWall).balloon.vx =
          Fixtures.keepupWall.balloon.vx * (-(19/20)))) ∧
     (KeepUp.crossesCeiling Fixtures.keepupWall = true →
      (KeepUp.gameLoop (1/2) Fixtures.keepupWall).balloon.y = KeepUp.BALLOON_RADIUS ∧
      (KeepUp.gameLoop (1/2) Fixtures.keepupWall).balloon.vy =
        (Fixtures.keepupWall.balloon.vy + Fixtures.keepupWall.gravity) * (-(9/10)))) ∧
    ((KeepUp.crossesWall Fixtures.keepupCeil = true →
      KeepUp.BALLOON_RADIUS ≤ (KeepUp.gameLoop 0 Fixtures.keepupCeil).balloon.x ∧
      (KeepUp.gameLoop 0 Fixtures.keepupCeil).balloon.x ≤
        KeepUp.GAME_WIDTH - KeepUp.BALLOON_RADIUS ∧
      (KeepUp.hitPaddle (KeepUp.moveBalloon Fixtures.keepupCeil) Fixtures.keepupCeil.paddleX = false →
        (KeepUp.gameLoop 0 Fixtures.keepupCeil).balloon.vx =
          Fixtures.keepupCeil.balloon.vx * (-(19/20)))) ∧
     (KeepUp.crossesCeiling Fixtures.keepupCeil = true →
      (KeepUp.gameLoop 0 Fixtures.keepupCeil).balloon.y = KeepUp.BALLOON_RADIUS ∧
      (KeepUp.gameLoop 0 Fixtures.keepupCeil).balloon.vy =
        (Fixtures.keepupCeil.balloon.vy + Fixtures.keepupCeil.gravity) * (-(9/10)))) :=
  ⟨claim2_wall_bounce_amended (1/2) Fixtures.keepupWall rfl,
   claim2_wall_bounce_amended 0 Fixtures.keepupCeil rfl⟩

/-- Claim C3 (amended): starting from an initial state (score 0, playing),
on the first tick whose post-physics balloon satisfies the paddle-contact
predicate, the score becomes 1, the status remains playing, and the vertical
velocity becomes `(HIT_FORCE + r · (−1)) · forceMultiplier 1` — the
configured hit force −5 plus the tick's random jitter `−r`, scaled by the
tier multiplier, which is 1 at score 1 (the code adds a uniform jitter, so
vy is not exactly `HIT_FORCE`). -/
theorem claim3_first_hit_amended (s0 : KeepUp.KState) (rng : ℕ → ℚ) (n : ℕ)
    (hscore : s0.score = 0) (halive : s0.isGameOver = false)
    (hfire : KeepUp.firesTick (KeepUp.ktrace rng s0 n) = true)
    (hfirst : ∀ m, m < n → KeepUp.firesTick (KeepUp.ktrace rng s0 m) = false) :
    (KeepUp.ktrace rng s0 (n + 1)).score = 1 ∧
    (KeepUp.ktrace rng s0 (n + 1)).isGameOver = false ∧
    (KeepUp.ktrace rng s0 (n + 1)).balloon.vy =
      (KeepUp.HIT_FORCE + rng n * (-1)) * KeepUp.forceMultiplier 1 ∧
    KeepUp.forceMultiplier 1 = 1 := by
  have hm1 : KeepUp.forceMultiplier 1 = 1 := by
    norm_num [KeepUp.forceMultiplier, KeepUp.YELLOW_MODE_SCORE, KeepUp.BLUE_MODE_SCORE,
      KeepUp.BLACK_MODE_SCORE]
  have hsc : ∀ m, m ≤ n → (KeepUp.ktrace rng s0 m).score = 0 := by
    intro m hm
    induction m with
    | zero => exact hscore
    | succ k ih =>
      have hk : k < n := lt_of_lt_of_le (Nat.lt_succ_self k) hm
      have hstep : (KeepUp.ktrace rng s0 (k + 1)).score = (KeepUp.ktrace rng s0 k).score :=
        KeepUp.gameLoop_not_fires_score (rng k) _ (hfirst k hk)
      rw [hstep, ih (le_of_lt hk)]
  have hn0 : (KeepUp.ktrace rng s0 n).score = 0 := hsc n le_rfl
  have hstep : KeepUp.ktrace rng s0 (n + 1) =
      KeepUp.paddleHitUpdate (rng n) (KeepUp.ktrace rng s0 n) :=
    KeepUp.gameLoop_fires (rng n) _ hfire
  refine ⟨?_, ?_, ?_, hm1⟩
  · rw [hstep, KeepUp.paddleHitUpdate_score, hn0]
  · rw [hstep, KeepUp.paddleHitUpdate_gameOver]
    exact (KeepUp.fires_elim _ hfire).1
  · rw [hstep, KeepUp.paddleHitUpdate_vy, hn0]

/-- Counterexample to C3 as stated: from a score-0 playing state whose next
tick is its first paddle hit, with random draw 1/2 the post-hit vertical
velocity is −11/2, not `HIT_FORCE · forceMultiplier 1 = −5`. -/
theorem claim3_first_hit_cex :
    KeepUp.firesTick Fixtures.keepupDrop = true ∧
    Fixtures.keepupDrop.score = 0 ∧
    Fixtures.keepupDrop.isGameOver = false ∧
    (KeepUp.gameLoop (1/2) Fixtures.keepupDrop).score = 1 ∧
    (KeepUp.gameLoop (1/2) Fixtures.keepupDrop).balloon.vy = -(11/2) ∧
    (KeepUp.gameLoop (1/2) Fixtures.keepupDrop).balloon.vy ≠
      KeepUp.HIT_FORCE * KeepUp.forceMultiplier 1 := by
  have h1 : KeepUp.firesTick Fixtures.keepupDrop = true := by
    norm_num [KeepUp.firesTick, Fixtures.keepupDrop, KeepUp.hitPaddle, KeepUp.moveBalloon,
      KeepUp.createInitialState, KeepUp.BALLOON_RADIUS, KeepUp.GAME_WIDTH, KeepUp.GAME_HEIGHT,
      KeepUp.PADDLE_Y_POS, KeepUp.PADDLE_WIDTH, KeepUp.PADDLE_HEIGHT, KeepUp.GRAVITY_START]
  have h2 : (KeepUp.gameLoop (1/2) Fixtures.keepupDrop).balloon.vy = -(11/2) := by
    norm_num [KeepUp.gameLoop, KeepUp.paddleHitUpdate, Fixtures.keepupDrop, KeepUp.hitPaddle,
      KeepUp.moveBalloon, KeepUp.createInitialState, KeepUp.forceMultiplier, KeepUp.hitsThreshold,
      KeepUp.BALLOON_RADIUS, KeepUp.GAME_WIDTH, KeepUp.GAME_HEIGHT, KeepUp.PADDLE_Y_POS,
      KeepUp.PADDLE_WIDTH, KeepUp.PADDLE_HEIGHT, KeepUp.GRAVITY_START, KeepUp.HIT_FORCE,
      KeepUp.YELLOW_MODE_SCORE, KeepUp.BLUE_MODE_SCORE, KeepUp.BLACK_MODE_SCORE]
  have h3 : (KeepUp.gameLoop (1/2) Fixtures.keepupDrop).score = 1 := by
    norm_num [KeepUp.gameLoop, KeepUp.paddleHitUpdate, Fixtures.keepupDrop, KeepUp.hitPaddle,
      KeepUp.moveBalloon, KeepUp.createInitialState, KeepUp.BALLOON_RADIUS, KeepUp.GAME_WIDTH,
      KeepUp.GAME_HEIGHT, KeepUp.PADDLE_Y_POS, KeepUp.PADDLE_WIDTH, KeepUp.PADDLE_HEIGHT,
      KeepUp.GRAVITY_START]
  have h4 : KeepUp.HIT_FORCE * KeepUp.forceMultiplier 1 = -5 := by
    norm_num [KeepUp.HIT_FORCE, KeepUp.forceMultiplier, KeepUp.YELLOW_MODE_SCORE,
      KeepUp.BLUE_MODE_SCORE, KeepUp.BLACK_MODE_SCORE]
  refine ⟨h1, rfl, rfl, h3, h2, ?_⟩
  rw [h2, h4]
  norm_num

/-- Witness for the amended C3: the first paddle hit of an explicit score-0
playing run happens on tick 0 with random draw 1/2. -/
theorem claim3_first_hit_amended_check :
    (KeepUp.ktrace (fun _ => 1/2) Fixtures.keepupDrop 1).score = 1 ∧
    (KeepUp.ktrace (fun _ => 1/2) Fixtures.keepupDrop 1).isGameOver = false ∧
    (KeepUp.ktrace (fun _ => 1/2) Fixtures.keepupDrop 1).balloon.vy =
      (KeepUp.HIT_FORCE + (fun _ : ℕ => (1:ℚ)/2) 0 * (-1)) * KeepUp.forceMultiplier 1 ∧
    KeepUp.forceMultiplier 1 = 1 :=
  claim3_first_hit_amended Fixtures.keepupDrop (fun _ => 1/2) 0 rfl rfl
    (by norm_num [KeepUp.ktrace, KeepUp.firesTick, Fixtures.keepupDrop, KeepUp.hitPaddle,
      KeepUp.moveBalloon, KeepUp.createInitialState, KeepUp.BALLOON_RADIUS, KeepUp.GAME_WIDTH,
      KeepUp.GAME_HEIGHT, KeepUp.PADDLE_Y_POS, KeepUp.PADDLE_WIDTH, KeepUp.PADDLE_HEIGHT,
      KeepUp.GRAVITY_START])
    (fun m hm => absurd hm (Nat.not_lt_zero m))

namespace KeepUp

theorem flashTimerLocal_le (n : ℕ) : flashTimerLocal n ≤ n := by
  unfold flashTimerLocal
  split <;> omega

theorem shockwaveMutated_active (sw : Shockwave) :
    (shockwaveMutated sw).active = sw.active := by
  unfold shockwaveMutated
  split <;> rfl

theorem shockwaveLocal_active (sw : Shockwave) :
    (shockwaveLocal sw).active = true → sw.active = true := by
  intro h
  simp only [shockwaveLocal] at h
  split at h
  · simp at h
  · rwa [shockwaveMutated_active] at h

/-- On a tick that arms no threshold event, the cosmetics are never freshly
armed: the flash timer does not increase and the shockwave cannot switch
from inactive to active. -/
theorem gameLoop_cosmetics_not_armed (r : ℚ) (s : KState) (h : armsTick s = false) :
    (gameLoop r s).flashTimer ≤ s.flashTimer ∧
    ((gameLoop r s).shockwave.active = true → s.shockwave.active = true) := by
  by_cases hg : s.isGameOver = true
  · rw [keepup_gameLoop_frozen r s hg]
    exact ⟨le_refl _, fun ha => ha⟩
  · have hg' : s.isGameOver = false := by simpa using hg
    by_cases hp : hitPaddle (moveBalloon s) s.paddleX = true
    · have hfire : firesTick s = true := by simp [firesTick, hg', hp]
      have hth : hitsThreshold (s.score + 1) = false := by
        simpa [armsTick, hfire] using h
      rw [gameLoop_fires r s hfire]
      unfold paddleHitUpdate
      simp only [hth, Bool.false_eq_true, if_false]
      exact ⟨flashTimerLocal_le s.flashTimer, shockwaveLocal_active s.shockwave⟩
    · have hp' : hitPaddle (moveBalloon s) s.paddleX = false := by simpa using hp
      simp only [gameLoop, hg', hp', Bool.false_eq_true, if_false]
      split
      · exact ⟨le_refl _, by rw [shockwaveMutated_active]; exact fun ha => ha⟩
      · exact ⟨flashTimerLocal_le s.flashTimer, shockwaveLocal_active s.shockwave⟩

end KeepUp

/-- Claim C5: in the balloon keep-up game, along any run from the initial
state, the threshold event of each threshold t of 20, 40, 60 (the code's
paddle-hit branch with `newScore === t`) occurs exactly on the tick whose
score crosses from t − 1 to t; such a crossing tick is unique, exists
whenever the score reaches t (the score advances in +1 steps, so it can
never jump over), and it arms the one-shot cosmetics (flash timer 15 and an
active shockwave).  The event is never re-triggered: on every tick with
score already ≥ t the event for t cannot occur, and on any tick arming no
threshold event the cosmetics are never freshly armed (the flash timer does
not increase and the shockwave cannot switch from inactive to active). -/
theorem claim5_threshold_one_shot (r0 : ℚ) (rng : ℕ → ℚ) (t : ℕ)
    (ht : t = KeepUp.YELLOW_MODE_SCORE ∨ t = KeepUp.BLUE_MODE_SCORE ∨
      t = KeepUp.BLACK_MODE_SCORE) :
    (∀ n, KeepUp.thresholdEventAt t (KeepUp.ktrace rng (KeepUp.createInitialState r0) n) =
      true ↔ KeepUp.FiredAt r0 rng t n) ∧
    (∀ m n, KeepUp.FiredAt r0 rng t m → KeepUp.FiredAt r0 rng t n → m = n) ∧
    (∀ N, t ≤ (KeepUp.ktrace rng (KeepUp.createInitialState r0) N).score →
      ∃ n, n < N ∧ KeepUp.FiredAt r0 rng t n) ∧
    (∀ n, KeepUp.FiredAt r0 rng t n →
      (KeepUp.ktrace rng (KeepUp.createInitialState r0) (n + 1)).flashTimer = 15 ∧
      (KeepUp.ktrace rng (KeepUp.createInitialState r0) (n + 1)).shockwave.active = true) ∧
    (∀ n, t ≤ (KeepUp.ktrace rng (KeepUp.createInitialState r0) n).score →
      KeepUp.thresholdEventAt t (KeepUp.ktrace rng (KeepUp.createInitialState r0) n) = false) ∧
    (∀ n, KeepUp.armsTick (KeepUp.ktrace rng (KeepUp.createInitialState r0) n) = false →
      (KeepUp.ktrace rng (KeepUp.createInitialState r0) (n + 1)).flashTimer ≤
        (KeepUp.ktrace rng (KeepUp.createInitialState r0) n).flashTimer ∧
      ((KeepUp.ktrace rng (KeepUp.createInitialState r0) (n + 1)).shockwave.active = true →
        (KeepUp.ktrace rng (KeepUp.createInitialState r0) n).shockwave.active = true)) := by
  refine ⟨?_, ?_, ?_, ?_, ?_, ?_⟩
  · intro n
    constructor
    · intro he
      obtain ⟨h1, h2⟩ : KeepUp.firesTick (KeepUp.ktrace rng (KeepUp.createInitialState r0) n) =
          true ∧ (KeepUp.ktrace rng (KeepUp.createInitialState r0) n).score + 1 = t := by
        simpa [KeepUp.thresholdEventAt] using he
      have hinc : (KeepUp.gameLoop (rng n)
          (KeepUp.ktrace rng (KeepUp.createInitialState r0) n)).score =
          (KeepUp.ktrace rng (KeepUp.createInitialState r0) n).score + 1 := by
        rw [KeepUp.gameLoop_fires _ _ h1, KeepUp.paddleHitUpdate_score]
      have hdef : (KeepUp.ktrace rng (KeepUp.createInitialState r0) (n + 1)).score =
          (KeepUp.gameLoop (rng n)
            (KeepUp.ktrace rng (KeepUp.createInitialState r0) n)).score := rfl
      exact ⟨h2, by omega⟩
    · intro hf
      have h1 := hf.1
      have h2 := hf.2
      have hdef : (KeepUp.ktrace rng (KeepUp.createInitialState r0) (n + 1)).score =
          (KeepUp.gameLoop (rng n)
            (KeepUp.ktrace rng (KeepUp.createInitialState r0) n)).score := rfl
      have hinc : (KeepUp.gameLoop (rng n)
          (KeepUp.ktrace rng (KeepUp.createInitialState r0) n)).score =
          (KeepUp.ktrace rng (KeepUp.createInitialState r0) n).score + 1 := by omega
      have hfire := KeepUp.fires_of_score_succ (rng n) _ hinc
      simp [KeepUp.thresholdEventAt, hfire, h1]
  · have key : ∀ m n, m < n → KeepUp.FiredAt r0 rng t m → KeepUp.FiredAt r0 rng t n →
        False := by
      intro m n hmn hm hn
      have h1 := hm.2
      have h2 := hn.1
      have hmono := KeepUp.ktrace_score_mono rng (KeepUp.createInitialState r0) (m + 1) n hmn
      omega
    intro m n hm hn
    rcases lt_trichotomy m n with h | h | h
    · exact (key m n h hm hn).elim
    · exact h
    · exact (key n m h hn hm).elim
  · intro N
    induction N with
    | zero =>
      intro hN
      have h0 : (KeepUp.ktrace rng (KeepUp.createInitialState r0) 0).score = 0 := rfl
      rw [h0] at hN
      rcases ht with rfl | rfl | rfl <;> exact absurd hN (by decide)
    | succ k ih =>
      intro hN
      by_cases hk : t ≤ (KeepUp.ktrace rng (KeepUp.createInitialState r0) k).score
      · obtain ⟨n, hn, hf⟩ := ih hk
        exact ⟨n, Nat.lt_succ_of_lt hn, hf⟩
      · push_neg at hk
        have hdef : (KeepUp.ktrace rng (KeepUp.createInitialState r0) (k + 1)).score =
            (KeepUp.gameLoop (rng k)
              (KeepUp.ktrace rng (KeepUp.createInitialState r0) k)).score := rfl
        rcases KeepUp.gameLoop_score_cases (rng k)
            (KeepUp.ktrace rng (KeepUp.createInitialState r0) k) with h | h
        · rw [hdef, h] at hN; omega
        · rw [hdef, h] at hN
          exact ⟨k, Nat.lt_succ_self k, by omega, by rw [hdef, h]; omega⟩
  · intro n hf
    have h1 := hf.1
    have h2 := hf.2
    have hinc : (KeepUp.gameLoop (rng n)
        (KeepUp.ktrace rng (KeepUp.createInitialState r0) n)).score =
        (KeepUp.ktrace rng (KeepUp.createInitialState r0) n).score + 1 := by
      have hdef : (KeepUp.ktrace rng (KeepUp.createInitialState r0) (n + 1)).score =
          (KeepUp.gameLoop (rng n)
            (KeepUp.ktrace rng (KeepUp.createInitialState r0) n)).score := rfl
      omega
    have hfire := KeepUp.fires_of_score_succ (rng n) _ hinc
    have hth : KeepUp.hitsThreshold
        ((KeepUp.ktrace rng (KeepUp.createInitialState r0) n).score + 1) = true := by
      rw [h1]
      rcases ht with rfl | rfl | rfl <;> decide
    exact KeepUp.gameLoop_fires_threshold (rng n) _ hfire hth
  · intro n hn
    have hd : decide ((KeepUp.ktrace rng (KeepUp.createInitialState r0) n).score + 1 = t) =
        false := by
      simp
      omega
    simp [KeepUp.thresholdEventAt, hd]
  · intro n h
    exact KeepUp.gameLoop_cosmetics_not_armed (rng n)
      (KeepUp.ktrace rng (KeepUp.createInitialState r0) n) h

/-- Witness for C5 at the concrete run (r0 = 0, rng ≡ 0) and threshold 20. -/
theorem claim5_threshold_one_shot_check :
    (∀ n, KeepUp.thresholdEventAt 20 (KeepUp.ktrace (fun _ => 0)
      (KeepUp.createInitialState 0) n) = true ↔ KeepUp.FiredAt 0 (fun _ => 0) 20 n) ∧
    (∀ m n, KeepUp.FiredAt 0 (fun _ => 0) 20 m → KeepUp.FiredAt 0 (fun _ => 0) 20 n →
      m = n) ∧
    (∀ N, 20 ≤ (KeepUp.ktrace (fun _ => 0) (KeepUp.createInitialState 0) N).score →
      ∃ n, n < N ∧ KeepUp.FiredAt 0 (fun _ => 0) 20 n) ∧
    (∀ n, KeepUp.FiredAt 0 (fun _ => 0) 20 n →
      (KeepUp.ktrace (fun _ => 0) (KeepUp.createInitialState 0) (n + 1)).flashTimer = 15 ∧
      (KeepUp.ktrace (fun _ => 0) (KeepUp.createInitialState 0) (n + 1)).shockwave.active =
        true) ∧
    (∀ n, 20 ≤ (KeepUp.ktrace (fun _ => 0) (KeepUp.createInitialState 0) n).score →
      KeepUp.thresholdEventAt 20 (KeepUp.ktrace (fun _ => 0)
        (KeepUp.createInitialState 0) n) = false) ∧
    (∀ n, KeepUp.armsTick (KeepUp.ktrace (fun _ => 0) (KeepUp.createInitialState 0) n) =
        false →
      (KeepUp.ktrace (fun _ => 0) (KeepUp.createInitialState 0) (n + 1)).flashTimer ≤
        (KeepUp.ktrace (fun _ => 0) (KeepUp.createInitialState 0) n).flashTimer ∧
      ((KeepUp.ktrace (fun _ => 0) (KeepUp.createInitialState 0) (n + 1)).shockwave.active =
          true →
        (KeepUp.ktrace (fun _ => 0) (KeepUp.createInitialState 0) n).shockwave.active =
          true)) :=
  claim5_threshold_one_shot 0 (fun _ => 0) 20 (Or.inl rfl)

/-- Claim C6: on game over of the balloon keep-up game, exactly one set of
persistence updates is emitted — the cumulative coin total grows by the
final score (a non-negative delta, as the new total is never below the old),
and the stored `keepup_best` value is overwritten only on a strictly greater
score; a re-run of the effect after the one-shot flag is set leaves the
storage untouched, and the effect does nothing before game over. -/
theorem claim6_gameover_persistence (score : ℕ) (st : KeepUp.Storage) :
    KeepUp.awardOnGameOver true score false st =
      ({ totalCoins := st.totalCoins + score,
         keepupBest := if st.keepupBest < score then score else st.keepupBest }, true) ∧
    (∀ st' : KeepUp.Storage, KeepUp.awardOnGameOver true score true st' = (st', true)) ∧
    (∀ st' : KeepUp.Storage, ∀ awarded : Bool,
      KeepUp.awardOnGameOver false score awarded st' = (st', awarded)) ∧
    st.totalCoins ≤ st.totalCoins + score :=
  ⟨rfl, fun _ => rfl, fun _ _ => rfl, Nat.le_add_right _ _⟩

namespace DotRunner

theorem generateCollectible_avoids (cands : List (ℚ × ℚ × ℚ)) (p sh : Pt) (c : Collectible)
    (h : generateCollectible cands p sh = some c) :
    ¬(c.x = p.x ∧ c.y = p.y) ∧ ¬(c.x = sh.x ∧ c.y = sh.y) := by
  have hp := List.find?_some h
  simp only [Bool.not_eq_true', Bool.or_eq_false_iff, Bool.and_eq_false_iff,
    decide_eq_false_iff_not] at hp
  tauto

theorem restartGame_collectible (rx ry rs : ℚ) (cands : List (ℚ × ℚ × ℚ)) (c : Collectible)
    (h : generateCollectible cands (createInitialState rx ry rs).player
      (createInitialState rx ry rs).shadow = some c) :
    (restartGame rx ry rs cands).collectible = c := by
  simp [restartGame, h]

end DotRunner

/-- Claim C7 (amended): restart is deterministic modulo the random draws —
every non-random component of the rebuilt initial state coincides across two
back-to-back restarts in both the snake and dot-runner games.  In the
dot-runner game the restart collectible indeed never lands on the player's
(or shadow's) starting cell whenever the draw stream offers an admissible
candidate; in the snake game, however, restart draws the food uniformly over
the whole grid with no exclusion, so the food may coincide with the snake's
starting cell (see the counterexample). -/
theorem claim7_restart_amended (rx ry re rx' ry' re' a b c a' b' c' : ℚ)
    (cd cd' : List (ℚ × ℚ × ℚ)) :
    ((Snake.restartGame rx ry re).snake = (Snake.restartGame rx' ry' re').snake ∧
     (Snake.restartGame rx ry re).direction = (Snake.restartGame rx' ry' re').direction ∧
     (Snake.restartGame rx ry re).score = (Snake.restartGame rx' ry' re').score ∧
     (Snake.restartGame rx ry re).isGameOver = (Snake.restartGame rx' ry' re').isGameOver ∧
     (Snake.restartGame rx ry re).speed = (Snake.restartGame rx' ry' re').speed) ∧
    ((DotRunner.restartGame a b c cd).player = (DotRunner.restartGame a' b' c' cd').player ∧
     (DotRunner.restartGame a b c cd).shadow = (DotRunner.restartGame a' b' c' cd').shadow ∧
     (DotRunner.restartGame a b c cd).score = (DotRunner.restartGame a' b' c' cd').score ∧
     (DotRunner.restartGame a b c cd).isGameOver =
       (DotRunner.restartGame a' b' c' cd').isGameOver ∧
     (DotRunner.restartGame a b c cd).gameSpeed =
       (DotRunner.restartGame a' b' c' cd').gameSpeed) ∧
    (∀ col : DotRunner.Collectible,
      DotRunner.generateCollectible cd (DotRunner.createInitialState a b c).player
        (DotRunner.createInitialState a b c).shadow = some col →
      (DotRunner.restartGame a b c cd).collectible = col ∧
      ¬(col.x = (DotRunner.restartGame a b c cd).player.x ∧
        col.y = (DotRunner.restartGame a b c cd).player.y) ∧
      ¬(col.x = (DotRunner.restartGame a b c cd).shadow.x ∧
        col.y = (DotRunner.restartGame a b c cd).shadow.y)) := by
  refine ⟨⟨rfl, rfl, rfl, rfl, rfl⟩, ⟨rfl, rfl, rfl, rfl, rfl⟩, ?_⟩
  intro col h
  have havoid := DotRunner.generateCollectible_avoids cd
    (DotRunner.createInitialState a b c).player (DotRunner.createInitialState a b c).shadow col h
  exact ⟨DotRunner.restartGame_collectible a b c cd col h, havoid.1, havoid.2⟩

/-- Counterexample to C7 as stated: snake restart with draws (1/2, 1/2, 0)
places the food exactly on the snake's starting cell (10, 10). -/
theorem claim7_restart_cex :
    (Snake.restartGame (1/2) (1/2) 0).snake = [Snake.startPoint] ∧
    (Snake.restartGame (1/2) (1/2) 0).food.x = Snake.startPoint.x ∧
    (Snake.restartGame (1/2) (1/2) 0).food.y = Snake.startPoint.y := by
  refine ⟨rfl, ?_, ?_⟩ <;>
    norm_num [Snake.restartGame, Snake.createInitialState, Snake.randFood, Snake.startPoint,
      Snake.GRID_SIZE, floorMul]

/-- Witness for the amended C7 at explicit draws and a draw list whose first
candidate, cell (5, 5), avoids both starting cells. -/
theorem claim7_restart_amended_check :
    (DotRunner.restartGame 0 0 0 [(1/5, 1/5, 0)]).collectible =
      { x := 5, y := 5, symbol := 0 } ∧
    ¬((5:ℤ) = (DotRunner.restartGame 0 0 0 [(1/5, 1/5, 0)]).player.x ∧
      (5:ℤ) = (DotRunner.restartGame 0 0 0 [(1/5, 1/5, 0)]).player.y) ∧
    ¬((5:ℤ) = (DotRunner.restartGame 0 0 0 [(1/5, 1/5, 0)]).shadow.x ∧
      (5:ℤ) = (DotRunner.restartGame 0 0 0 [(1/5, 1/5, 0)]).shadow.y) :=
  (claim7_restart_amended 0 0 0 0 0 0 0 0 0 0 0 0 [(1/5, 1/5, 0)] []).2.2
    { x := 5, y := 5, symbol := 0 }
    (by norm_num [DotRunner.generateCollectible, DotRunner.createInitialState,
      DotRunner.randCollectible, DotRunner.GRID_SIZE, floorMul, List.find?])

/-- Claim C8: in the danger-zone game, holding two opposing direction inputs
on the same axis during one tick combines deterministically and cancels to
zero net movement on that axis (the in-bounds hypotheses rule out the clamp
shifting an out-of-bounds position). -/
theorem claim8_opposing_inputs_cancel (keys : Key → Bool) (p : Danger.DPlayer)
    (hx0 : 0 ≤ p.x) (hx1 : p.x ≤ Danger.GAME_WIDTH - Danger.PLAYER_SIZE)
    (hy0 : 0 ≤ p.y) (hy1 : p.y ≤ Danger.GAME_HEIGHT - Danger.PLAYER_SIZE) :
    (keys Key.arrowLeft = true → keys Key.arrowRight = true →
      (Danger.movePlayer keys p).x = p.x) ∧
    (keys Key.arrowUp = true → keys Key.arrowDown = true →
      (Danger.movePlayer keys p).y = p.y) :=
  ⟨fun hL hR => Danger.movePlayer_x_cancel keys p hL hR hx0 hx1,
   fun hU hD => Danger.movePlayer_y_cancel keys p hU hD hy0 hy1⟩

/-- Witness for C8: with all four arrow keys held at the starting position,
the tick moves the player on neither axis. -/
theorem claim8_opposing_inputs_cancel_check :
    (Fixtures.allKeys Key.arrowLeft = true → Fixtures.allKeys Key.arrowRight = true →
      (Danger.movePlayer Fixtures.allKeys Fixtures.dangerPlayer).x = Fixtures.dangerPlayer.x) ∧
    (Fixtures.allKeys Key.arrowUp = true → Fixtures.allKeys Key.arrowDown = true →
      (Danger.movePlayer Fixtures.allKeys Fixtures.dangerPlayer).y = Fixtures.dangerPlayer.y) :=
  claim8_opposing_inputs_cancel Fixtures.allKeys Fixtures.dangerPlayer
    (by norm_num [Fixtures.dangerPlayer])
    (by norm_num [Fixtures.dangerPlayer, Danger.GAME_WIDTH, Danger.PLAYER_SIZE])
    (by norm_num [Fixtures.dangerPlayer])
    (by norm_num [Fixtures.dangerPlayer, Danger.GAME_HEIGHT, Danger.PLAYER_SIZE])

/-- Claim C4: boundary containment after every clamping tick — the
danger-zone player satisfies `0 ≤ x ≤ width − playerSize` on both axes after
`movePlayer`; the shooter player (whose stored position is its centre, so
the bounding-box corner is centre − radius and the entity width 2·radius)
stays clamped on both axes after every non-terminal tick; and the platformer
player satisfies the x-clamp after every playing tick. -/
theorem claim4_boundary_containment :
    (∀ (keys : Key → Bool) (p : Danger.DPlayer),
      0 ≤ (Danger.movePlayer keys p).x ∧
      (Danger.movePlayer keys p).x ≤ Danger.GAME_WIDTH - Danger.PLAYER_SIZE ∧
      0 ≤ (Danger.movePlayer keys p).y ∧
      (Danger.movePlayer keys p).y ≤ Danger.GAME_HEIGHT - Danger.PLAYER_SIZE) ∧
    (∀ (w : Shooter.Weapon) (env : Shooter.Env) (s : Shooter.ShState),
      s.isGameOver = false → s.isShopOpen = false →
      0 ≤ (Shooter.gameLoop w env s).player.x - Shooter.PLAYER_RADIUS ∧
      (Shooter.gameLoop w env s).player.x - Shooter.PLAYER_RADIUS ≤
        Shooter.GAME_WIDTH - 2 * Shooter.PLAYER_RADIUS ∧
      0 ≤ (Shooter.gameLoop w env s).player.y - Shooter.PLAYER_RADIUS ∧
      (Shooter.gameLoop w env s).player.y - Shooter.PLAYER_RADIUS ≤
        Shooter.GAME_HEIGHT - 2 * Shooter.PLAYER_RADIUS) ∧
    (∀ (level : Platformer.Level) (s : Platformer.PState),
      s.status = .playing →
      0 ≤ (Platformer.gameLoop level false s).player.x ∧
      (Platformer.gameLoop level false s).player.x ≤
        Platformer.GAME_WIDTH - Platformer.PLAYER_WIDTH) := by
  refine ⟨Danger.movePlayer_bounds, ?_, Platformer.gameLoop_x_bounds⟩
  intro w env s h1 h2
  have hp := Shooter.gameLoop_player w env s h1 h2
  have hb := Shooter.movePlayerPhase_bounds s.player
  rw [hp]
  refine ⟨by linarith [hb.1], ?_, by linarith [hb.2.2.1], ?_⟩
  · have := hb.2.1
    norm_num [Shooter.GAME_WIDTH, Shooter.PLAYER_RADIUS] at this ⊢
    linarith
  · have := hb.2.2.2
    norm_num [Shooter.GAME_HEIGHT, Shooter.PLAYER_RADIUS] at this ⊢
    linarith

/-- Witness for C4 at the shooter's initial state and an explicit playing
platformer state. -/
theorem claim4_boundary_containment_check :
    (0 ≤ (Shooter.gameLoop .pistol Fixtures.shooterEnv Shooter.createInitialState).player.x -
      Shooter.PLAYER_RADIUS ∧
     (Shooter.gameLoop .pistol Fixtures.shooterEnv Shooter.createInitialState).player.x -
       Shooter.PLAYER_RADIUS ≤ Shooter.GAME_WIDTH - 2 * Shooter.PLAYER_RADIUS ∧
     0 ≤ (Shooter.gameLoop .pistol Fixtures.shooterEnv Shooter.createInitialState).player.y -
       Shooter.PLAYER_RADIUS ∧
     (Shooter.gameLoop .pistol Fixtures.shooterEnv Shooter.createInitialState).player.y -
       Shooter.PLAYER_RADIUS ≤ Shooter.GAME_HEIGHT - 2 * Shooter.PLAYER_RADIUS) ∧
    (0 ≤ (Platformer.gameLoop Fixtures.platLevel false Fixtures.platPlaying).player.x ∧
     (Platformer.gameLoop Fixtures.platLevel false Fixtures.platPlaying).player.x ≤
       Platformer.GAME_WIDTH - Platformer.PLAYER_WIDTH) :=
  ⟨claim4_boundary_containment.2.1 .pistol Fixtures.shooterEnv Shooter.createInitialState rfl rfl,
   claim4_boundary_containment.2.2 Fixtures.platLevel Fixtures.platPlaying rfl⟩

/-- Claim C9: in the shooter game, after every non-terminal tick the shield
hit points are ≥ 0; on the tick where the accumulated enemy hits would drive
the hp (the pre-clamp value `rawShieldHp`) to zero or below, the post-tick
hp is exactly 0 and the game is over on that same tick; otherwise the hp
equals the accumulated value and the game continues — so no reachable
post-tick state has negative shield hp. -/
theorem claim9_shield_clamped (w : Shooter.Weapon) (env : Shooter.Env) (s : Shooter.ShState)
    (h1 : s.isGameOver = false) (h2 : s.isShopOpen = false) :
    0 ≤ (Shooter.gameLoop w env s).shieldHp ∧
    (Shooter.rawShieldHp w env s ≤ 0 →
      (Shooter.gameLoop w env s).shieldHp = 0 ∧ (Shooter.gameLoop w env s).isGameOver = true) ∧
    (0 < Shooter.rawShieldHp w env s →
      (Shooter.gameLoop w env s).shieldHp = Shooter.rawShieldHp w env s ∧
      (Shooter.gameLoop w env s).isGameOver = false) := by
  obtain ⟨hhp, hgo⟩ := Shooter.gameLoop_shield w env s h1 h2
  rw [hhp, hgo]
  unfold Shooter.shieldOutcome
  split_ifs with h
  · exact ⟨le_refl 0, fun _ => ⟨rfl, rfl⟩, fun hc => absurd h (by omega)⟩
  · exact ⟨by omega, fun hc => absurd hc h, fun _ => ⟨rfl, rfl⟩⟩

/-- Witness for C9 at the shooter's initial state (no enemies: the raw hp
stays at 100 and the game continues). -/
theorem claim9_shield_clamped_check :
    0 ≤ (Shooter.gameLoop .pistol Fixtures.shooterEnv Shooter.createInitialState).shieldHp ∧
    (Shooter.rawShieldHp .pistol Fixtures.shooterEnv Shooter.createInitialState ≤ 0 →
      (Shooter.gameLoop .pistol Fixtures.shooterEnv Shooter.createInitialState).shieldHp = 0 ∧
      (Shooter.gameLoop .pistol Fixtures.shooterEnv Shooter.createInitialState).isGameOver = true) ∧
    (0 < Shooter.rawShieldHp .pistol Fixtures.shooterEnv Shooter.createInitialState →
      (Shooter.gameLoop .pistol Fixtures.shooterEnv Shooter.createInitialState).shieldHp =
        Shooter.rawShieldHp .pistol Fixtures.shooterEnv Shooter.createInitialState ∧
      (Shooter.gameLoop .pistol Fixtures.shooterEnv Shooter.createInitialState).isGameOver =
        false) :=
  claim9_shield_clamped .pistol Fixtures.shooterEnv Shooter.createInitialState rfl rfl

/-- Claim C10: in the snake game, every state reachable from the initial
state satisfies `snake.length = score + 1`; a tick whose moved head lands on
the food (with no wall/self collision) grows the snake by exactly one
segment and increments the score by one, and every other tick preserves both
the length and the score. -/
theorem claim10_snake_length_invariant (inputs : ℕ → Option Snake.Direction)
    (cands : ℕ → List (ℚ × ℚ × ℚ)) (rx ry re : ℚ) :
    (∀ n, (Snake.strace inputs cands (Snake.createInitialState rx ry re) n).snake.length =
      (Snake.strace inputs cands (Snake.createInitialState rx ry re) n).score + 1) ∧
    (∀ (b : Option Snake.Direction) (cs : List (ℚ × ℚ × ℚ)) (s : Snake.SState),
      Snake.eatsTick b s = true →
        (Snake.gameLoop b cs s).snake.length = s.snake.length + 1 ∧
        (Snake.gameLoop b cs s).score = s.score + 1) ∧
    (∀ (b : Option Snake.Direction) (cs : List (ℚ × ℚ × ℚ)) (s : Snake.SState),
      Snake.eatsTick b s = false →
        (Snake.gameLoop b cs s).snake.length = s.snake.length ∧
        (Snake.gameLoop b cs s).score = s.score) :=
  ⟨Snake.strace_inv inputs cands rx ry re, Snake.gameLoop_eats, Snake.gameLoop_not_eats⟩

/-- Witness for C10: the invariant along a concrete run, an explicit eating
tick, and an explicit non-eating tick. -/
theorem claim10_snake_length_invariant_check :
    (∀ n, (Snake.strace (fun _ => some .right) (fun _ => []) (Snake.createInitialState 0 0 0)
        n).snake.length =
      (Snake.strace (fun _ => some .right) (fun _ => []) (Snake.createInitialState 0 0 0)
        n).score + 1) ∧
    ((Snake.gameLoop none [] Fixtures.snakeEat).snake.length =
        Fixtures.snakeEat.snake.length + 1 ∧
      (Snake.gameLoop none [] Fixtures.snakeEat).score = Fixtures.snakeEat.score + 1) ∧
    ((Snake.gameLoop none [] Fixtures.snakeMove).snake.length =
        Fixtures.snakeMove.snake.length ∧
      (Snake.gameLoop none [] Fixtures.snakeMove).score = Fixtures.snakeMove.score) :=
  ⟨(claim10_snake_length_invariant (fun _ => some .right) (fun _ => []) 0 0 0).1,
   (claim10_snake_length_invariant (fun _ => some .right) (fun _ => []) 0 0 0).2.1 none []
     Fixtures.snakeEat
     (by norm_num [Snake.eatsTick, Fixtures.snakeEat, Snake.newHead, Snake.nextDirection,
       Snake.moveHead, Snake.hitsWall, Snake.hitsSelf, Snake.createInitialState, Snake.randFood,
       Snake.startPoint, Snake.GRID_SIZE, floorMul, List.headI]),
   (claim10_snake_length_invariant (fun _ => some .right) (fun _ => []) 0 0 0).2.2 none []
     Fixtures.snakeMove
     (by norm_num [Snake.eatsTick, Fixtures.snakeMove, Snake.newHead, Snake.nextDirection,
       Snake.moveHead, Snake.hitsWall, Snake.hitsSelf, Snake.createInitialState, Snake.randFood,
       Snake.startPoint, Snake.GRID_SIZE, floorMul, List.headI])⟩
